import Mathlib

/-
  Verification development for the GPS-disciplined NTP server firmware
  (src/GPS.h and src/NTP.h).  The C++ code is shallowly embedded:
  machine integers become Nat with explicit reduction modulo 2^32 or
  2^16 where the C width matters, C float/double quality figures become
  rationals, fallible parsing becomes Option, and the per-cycle mutation
  of the singleton objects becomes explicit state passing.
-/

set_option maxRecDepth 8000

namespace NTPFW

/-! ## Machine-integer helpers

`millis()` / `micros()` values and most counters are `uint32_t` in the
source; client aggressive counters are `uint16_t`.  Unsigned wraparound
subtraction `a - b` on `uint32_t` is `(a + 2^32 - b) % 2^32`. -/

def U32 : Nat := 4294967296

def U16 : Nat := 65536

/-- Reduce to a 32-bit value, as storing into a `uint32_t` does. -/
def u32 (n : Nat) : Nat := n % U32

/-- `uint32_t` increment (`x++` on a 32-bit counter). -/
def inc32 (n : Nat) : Nat := (n + 1) % U32

/-- `uint16_t` increment (`x++` on a 16-bit counter). -/
def inc16 (n : Nat) : Nat := (n + 1) % U16

/-- `uint32_t` subtraction `a - b` with wraparound. -/
def u32sub (a b : Nat) : Nat := (a + U32 - b % U32) % U32

/-! ## GPS.h data structures -/

/-- `SatelliteInfo` (GPS.h): one tracked satellite. -/
structure SatelliteInfo where
  prn : Nat
  constellation : Nat
  elevation : Nat
  azimuth : Nat
  snr : Nat
  inUse : Bool
  tracked : Bool
deriving Repr, DecidableEq

/-- `SatelliteTracking` (GPS.h).  The C fixed array of `MAX_SATELLITES`
slots together with `count` is modelled as the list of the first
`count` slots (`count = satellites.length`); physical slots at or past
`count` are untracked in every reachable state, so they carry no
information. -/
structure SatelliteTracking where
  satellites : List SatelliteInfo
  lastUpdate : Nat
  gpsCount : Nat
  glonassCount : Nat
  galileoCount : Nat
  beidouCount : Nat
  qzssCount : Nat
  totalInUse : Nat
deriving Repr, DecidableEq

/-- `GPSData` (GPS.h): the per-cycle snapshot.  `double`/`float`
fields are modelled as rationals. -/
structure GPSData where
  timeValid : Bool
  hour : Nat
  minute : Nat
  second : Nat
  centisecond : Nat
  day : Nat
  month : Nat
  year : Nat
  unixTime : Nat
  lockAcquiredTime : Nat
  lockAcquiredFraction : Nat
  hadPreviousFix : Bool
  valid : Bool
  latitude : ℚ
  longitude : ℚ
  altitude : ℚ
  speed : ℚ
  course : ℚ
  satellites : Nat
  hdop : ℚ
  pdop : ℚ
  vdop : ℚ
  fixQuality : Nat
  fixMode : Nat
  lastUpdateMillis : Nat
  updateAge : Nat
  charsProcessed : Nat
  sentencesFailed : Nat
  totalSentences : Nat
  lastValidSentence : String
deriving Repr, DecidableEq

def MAX_SATELLITES : Nat := 32

/-- `detectConstellationFromPRN` (GPS.h). -/
def detectConstellationFromPRN (prn : Nat) : Nat :=
  if 1 ≤ prn ∧ prn ≤ 32 then 1
  else if 65 ≤ prn ∧ prn ≤ 96 then 2
  else if 193 ≤ prn ∧ prn ≤ 202 then 5
  else if 301 ≤ prn ∧ prn ≤ 336 then 3
  else if 401 ≤ prn ∧ prn ≤ 437 then 4
  else 1

/-- Modify the first element satisfying `pred` (the C pattern of a
linear scan with a `found` flag and `break`). -/
def modifyFirstBy (pred : SatelliteInfo → Bool) (f : SatelliteInfo → SatelliteInfo) :
    List SatelliteInfo → List SatelliteInfo
  | [] => []
  | s :: ss => if pred s then f s :: ss else s :: modifyFirstBy pred f ss

/-- The entry written by the GSV satellite loop (GPS.h
`parseGSVSentence` body): constellation is reset to 0 (unknown until a
GNGSA sentence assigns it) and `inUse` is cleared. -/
def gsvEntry (prn elevation azimuth snr : Nat) : SatelliteInfo :=
  { prn := prn, constellation := 0, elevation := elevation,
    azimuth := azimuth, snr := snr, inUse := false, tracked := true }

/-- Slot selection and store for one GSV satellite: find the existing
entry by PRN, else reuse the first untracked slot, else claim a new
slot while fewer than `MAX_SATELLITES` entries exist. -/
def gsvStore (prn elevation azimuth snr : Nat) (sats : List SatelliteInfo) :
    List SatelliteInfo :=
  if sats.any (fun s => s.prn == prn) then
    modifyFirstBy (fun s => s.prn == prn) (fun _ => gsvEntry prn elevation azimuth snr) sats
  else if sats.any (fun s => !s.tracked) then
    modifyFirstBy (fun s => !s.tracked) (fun _ => gsvEntry prn elevation azimuth snr) sats
  else if sats.length < MAX_SATELLITES then
    sats ++ [gsvEntry prn elevation azimuth snr]
  else
    sats

/-- The up-to-4-satellite loop of `parseGSVSentence`; a missing or zero
PRN field breaks out of the loop. -/
def gsvSatLoop : List (Nat × Nat × Nat × Nat) → List SatelliteInfo → List SatelliteInfo
  | [], sats => sats
  | (prn, elevation, azimuth, snr) :: rest, sats =>
    if prn = 0 then sats
    else gsvSatLoop rest (gsvStore prn elevation azimuth snr sats)

/-- Marking applied by `markSatellitesInUse` to a matched entry. -/
def markEntry (constellationType : Nat) (s : SatelliteInfo) : SatelliteInfo :=
  { s with inUse := true, constellation := constellationType, tracked := true }

/-- Entry created by `markSatellitesInUse` when a listed PRN is not in
the table yet (GSA arriving before GSV). -/
def gsaEntry (prn constellationType : Nat) : SatelliteInfo :=
  { prn := prn, constellation := constellationType, elevation := 0,
    azimuth := 0, snr := 0, inUse := true, tracked := true }

/-- One iteration of the 12-PRN loop of `markSatellitesInUse`: match by
PRN and mark, else append while the table has room. -/
def markOne (constellationType prn : Nat) (sats : List SatelliteInfo) :
    List SatelliteInfo :=
  if sats.any (fun s => s.prn == prn) then
    modifyFirstBy (fun s => s.prn == prn) (markEntry constellationType) sats
  else if sats.length < MAX_SATELLITES then
    sats ++ [gsaEntry prn constellationType]
  else
    sats

/-- The 12-iteration PRN loop of `markSatellitesInUse`; a zero (or
absent) PRN field is skipped with `continue`. -/
def markLoop (constellationType : Nat) (prns : List Nat) (sats : List SatelliteInfo) :
    List SatelliteInfo :=
  prns.foldl (fun acc p => if p = 0 then acc else markOne constellationType p acc) sats

/-- `EventType` (GPS.h). -/
inductive EventType where
  | gpsFixAcquired
  | gpsFixLost
  | lowSatelliteCount
  | highHdop
  | highPdop
  | gpsTimeout
  | gpsUnresponsive
  | networkConnected
  | networkDisconnected
  | configSaved
  | ntpServingStarted
  | systemBoot
deriving Repr, DecidableEq

/-- Index of an event type in the `lastEventTime[12]` array. -/
def EventType.toIdx : EventType → Nat
  | .gpsFixAcquired => 0
  | .gpsFixLost => 1
  | .lowSatelliteCount => 2
  | .highHdop => 3
  | .highPdop => 4
  | .gpsTimeout => 5
  | .gpsUnresponsive => 6
  | .networkConnected => 7
  | .networkDisconnected => 8
  | .configSaved => 9
  | .ntpServingStarted => 10
  | .systemBoot => 11

/-- `SystemEvent` (GPS.h); the 64-byte message truncation is not
modelled, messages are plain strings. -/
structure SystemEvent where
  etype : EventType
  timestamp : Nat
  message : String
deriving Repr, DecidableEq

/-- `EventLog` (GPS.h): circular buffer of 50 events.  The fixed array
is modelled as the list of slots written so far (the write at `head`
extends the list until it reaches capacity, then overwrites in place). -/
structure EventLog where
  events : List SystemEvent
  head : Nat
  count : Nat
deriving Repr, DecidableEq

def MAX_EVENTS : Nat := 50

/-- `HistoricalDataPoint` (GPS.h). -/
structure HistoricalDataPoint where
  timestamp : Nat
  satelliteCount : Nat
  hdop : ℚ
  pdop : ℚ
  fixQuality : Nat
  fixMode : Nat
  avgSNR : ℚ
  hasValidFix : Bool
deriving Repr, DecidableEq

/-- `HistoricalData` (GPS.h): 60-slot ring buffer, modelled like
`EventLog`. -/
structure HistoricalData where
  points : List HistoricalDataPoint
  head : Nat
  count : Nat
  lastRecordTime : Nat
deriving Repr, DecidableEq

def HISTORY_BUFFER_SIZE : Nat := 60

/-- `SystemHealth` (GPS.h). -/
structure SystemHealth where
  overallScore : Nat
  gpsScore : Nat
  satelliteScore : Nat
  hdopScore : Nat
  snrScore : Nat
  fixAgeScore : Nat
  fixModeScore : Nat
  criticalAlert : Bool
  warningAlert : Bool
  alertMessage : String
  lastCalculation : Nat
deriving Repr, DecidableEq

/-- `AlertThresholds` (GPS.h) with its member-initializer defaults. -/
structure AlertThresholds where
  minSatellites : Nat := 4
  maxHDOP : ℚ := 5
  maxPDOP : ℚ := 8
  maxFixAge : Nat := 60000
  minUptime : Nat := 300000
  minAvgSNR : ℚ := 25
deriving Repr, DecidableEq

/-- `WatchdogState` (GPS.h); `lastEventTime` is the 12-entry array. -/
structure WatchdogState where
  lastCharReceived : Nat
  lastEventTime : List Nat
  unresponsive : Bool
deriving Repr, DecidableEq

/-- The capability-detection part of `GPSConfig` (GPS.h); the module
name string is omitted (hardware bring-up is out of scope). -/
structure GPSConfigState where
  gpgsvEnabled : Bool
  gpgsaEnabled : Bool
  configurationComplete : Bool
  lastConfigCheck : Nat
  updateRate : Nat
deriving Repr, DecidableEq

/-- The mutable state of one `GPS` object. -/
structure GPSState where
  config : GPSConfigState
  gpsData : GPSData
  satTracking : SatelliteTracking
  history : HistoricalData
  eventLog : EventLog
  health : SystemHealth
  thresholds : AlertThresholds
  watchdog : WatchdogState
deriving Repr, DecidableEq

/-- Outputs of the external TinyGPS++ decoder consumed by
`updateGPSData`, taken as an input snapshot. -/
structure DecoderSnapshot where
  timeValid : Bool
  dateValid : Bool
  hour : Nat
  minute : Nat
  second : Nat
  centisecond : Nat
  day : Nat
  month : Nat
  year : Nat
  locValid : Bool
  lat : ℚ
  lng : ℚ
  altValid : Bool
  altitudeMeters : ℚ
  speedValid : Bool
  speedKmph : ℚ
  courseValid : Bool
  courseDeg : ℚ
  satellitesValid : Bool
  satellitesValue : Nat
  hdopValid : Bool
  hdopValue : ℚ
  charsProcessed : Nat
  failedChecksum : Nat
  passedChecksum : Nat
deriving Repr, DecidableEq

/-! ## Event plumbing -/

/-- `shouldFireEvent` (GPS.h): per-type 60 s cooldown; the timestamp is
refreshed only when the event fires. -/
def shouldFireEvent (w : WatchdogState) (t : EventType) (now : Nat) :
    WatchdogState × Bool :=
  if u32sub now (w.lastEventTime.getD t.toIdx 0) < 60000 then (w, false)
  else ({ w with lastEventTime := w.lastEventTime.set t.toIdx now }, true)

/-- `addEvent` (GPS.h): write at `head`, advance cyclically, cap the
count. -/
def addEvent (log : EventLog) (t : EventType) (message : String) (now : Nat) :
    EventLog :=
  let ev : SystemEvent := { etype := t, timestamp := now, message := message }
  { events := if log.head < log.events.length
              then log.events.set log.head ev
              else log.events ++ [ev],
    head := (log.head + 1) % MAX_EVENTS,
    count := if log.count < MAX_EVENTS then log.count + 1 else log.count }

/-- The source pattern `if (cond && shouldFireEvent(t)) addEvent(t, msg)`
with its short-circuit evaluation. -/
def condFire (cond : Bool) (w : WatchdogState) (log : EventLog) (t : EventType)
    (message : String) (now : Nat) : WatchdogState × EventLog :=
  if cond then
    let p := shouldFireEvent w t now
    if p.2 then (p.1, addEvent log t message now) else (p.1, log)
  else (w, log)

/-! ## Sentence parsing at state level -/

/-- One already-tokenized NMEA sentence.  Tokenization (splitting on
commas and the checksum asterisk) is below the embedding: GSV sentences
carry the up-to-four (PRN, elevation, azimuth, SNR) groups, GSA
sentences carry the fix-type token, the PRN fields consumed by the
12-iteration satellite loop, and the optional trailing DOP tokens;
GNGSA additionally carries the trailing system id. -/
inductive NmeaSentence where
  | gpgsv (sats : List (Nat × Nat × Nat × Nat))
  | glgsv (sats : List (Nat × Nat × Nat × Nat))
  | gagsv (sats : List (Nat × Nat × Nat × Nat))
  | gbgsv (sats : List (Nat × Nat × Nat × Nat))
  | gngsv (sats : List (Nat × Nat × Nat × Nat))
  | gpgsa (fixTypeTok : Option Nat) (satFields : List Nat)
      (pdopTok hdopTok vdopTok : Option ℚ)
  | gngsa (systemId : Nat) (fixTypeTok : Option Nat) (satFields : List Nat)
      (pdopTok hdopTok vdopTok : Option ℚ)
deriving Repr, DecidableEq

/-- `parseGSVSentence` (GPS.h): update up to four satellites and touch
`satTracking.lastUpdate`.  The constellation argument is unused by the
source body (entries get constellation 0 until a GNGSA assigns it). -/
def parseGSVSentence (st : GPSState) (_constellationType : Nat)
    (sats : List (Nat × Nat × Nat × Nat)) (now : Nat) : GPSState :=
  { st with satTracking :=
      { st.satTracking with
        satellites := gsvSatLoop sats st.satTracking.satellites,
        lastUpdate := now } }

/-- `markSatellitesInUse` (GPS.h): set `fixMode` from the fix-type
token, run the 12-PRN marking loop, then read the trailing PDOP, HDOP
and VDOP tokens when present. -/
def markSatellitesInUse (st : GPSState) (constellationType : Nat)
    (fixTypeTok : Option Nat) (satFields : List Nat)
    (pdopTok hdopTok vdopTok : Option ℚ) : GPSState :=
  let g0 := fixTypeTok.elim st.gpsData (fun ft => { st.gpsData with fixMode := ft })
  let sats1 := markLoop constellationType (satFields.take 12)
      st.satTracking.satellites
  let g1 := pdopTok.elim g0 (fun v => { g0 with pdop := v })
  let g2 := hdopTok.elim g1 (fun v => { g1 with hdop := v })
  let g3 := vdopTok.elim g2 (fun v => { g2 with vdop := v })
  { st with
    gpsData := g3
    satTracking := { st.satTracking with satellites := sats1 } }

/-- `parseGPGSASentence` (GPS.h): plain GPGSA marks with constellation
1 and never clears. -/
def parseGPGSASentence (st : GPSState) (fixTypeTok : Option Nat)
    (satFields : List Nat) (pdopTok hdopTok vdopTok : Option ℚ) : GPSState :=
  markSatellitesInUse st 1 fixTypeTok satFields pdopTok hdopTok vdopTok

/-- `parseGNGSASentence` (GPS.h): validate the trailing system id
(1-6); when the sequence restarts at system id 1, clear every `inUse`
flag before re-marking. -/
def parseGNGSASentence (st : GPSState) (systemId : Nat) (fixTypeTok : Option Nat)
    (satFields : List Nat) (pdopTok hdopTok vdopTok : Option ℚ) : GPSState :=
  if systemId < 1 ∨ 6 < systemId then st
  else
    let st1 :=
      if systemId = 1 then
        { st with satTracking :=
            { st.satTracking with
              satellites := st.satTracking.satellites.map
                (fun s => { s with inUse := false }) } }
      else st
    markSatellitesInUse st1 systemId fixTypeTok satFields pdopTok hdopTok vdopTok

/-- `parseNMEASentence` (GPS.h): capability detection and routing to
the per-sentence parsers.  GNGSV infers a provisional constellation
from the first PRN before delegating. -/
def parseNMEASentence (st : GPSState) (s : NmeaSentence) (now : Nat) : GPSState :=
  let cfg0 := st.config
  let cfg1 :=
    if !cfg0.configurationComplete then
      let c1 := match s with
        | .gpgsv _ | .gngsv _ => { cfg0 with gpgsvEnabled := true }
        | .gpgsa _ _ _ _ _ | .gngsa _ _ _ _ _ _ => { cfg0 with gpgsaEnabled := true }
        | _ => cfg0
      if u32sub now c1.lastConfigCheck > 10000 then
        { c1 with configurationComplete := true }
      else c1
    else cfg0
  let st1 := { st with config := cfg1 }
  match s with
  | .gpgsv sats =>
      let st2 := parseGSVSentence st1 1 sats now
      { st2 with gpsData := { st2.gpsData with lastValidSentence := "GPGSV" } }
  | .glgsv sats =>
      let st2 := parseGSVSentence st1 2 sats now
      { st2 with gpsData := { st2.gpsData with lastValidSentence := "GLGSV" } }
  | .gagsv sats =>
      let st2 := parseGSVSentence st1 3 sats now
      { st2 with gpsData := { st2.gpsData with lastValidSentence := "GAGSV" } }
  | .gbgsv sats =>
      let st2 := parseGSVSentence st1 4 sats now
      { st2 with gpsData := { st2.gpsData with lastValidSentence := "GBGSV" } }
  | .gngsv sats =>
      let st2 := match sats.head? with
        | some (prn, _, _, _) =>
            parseGSVSentence st1 (detectConstellationFromPRN prn) sats now
        | none => st1
      { st2 with gpsData := { st2.gpsData with lastValidSentence := "GNGSV" } }
  | .gpgsa ft sf p h v =>
      let st2 := parseGPGSASentence st1 ft sf p h v
      { st2 with gpsData := { st2.gpsData with lastValidSentence := "GPGSA" } }
  | .gngsa sysId ft sf p h v =>
      let st2 := parseGNGSASentence st1 sysId ft sf p h v
      { st2 with gpsData := { st2.gpsData with lastValidSentence := "GNGSA" } }

/-! ## Snapshot aggregation -/

/-- The month-length table `daysInMonth[]` of `updateGPSData`. -/
def daysInMonthTable : List Nat := [31, 28, 31, 30, 31, 30, 31, 31, 30, 31, 30, 31]

/-- The leap-year test of `updateGPSData`:
`(y % 4 == 0 && y % 100 != 0) || (y % 400 == 0)`. -/
def isLeapYear (y : Nat) : Bool :=
  (y % 4 == 0 && y % 100 != 0) || (y % 400 == 0)

/-- The unix-timestamp computation of `updateGPSData` (GPS.h lines
994-1020): a year loop from 1970, a month loop with a February
correction, then `days * 86400UL + ...` stored into the 32-bit
`unixTime` field. -/
def computeUnixTime (year month day hour minute second : Nat) : Nat :=
  let days0 := (List.range' 1970 (year - 1970)).foldl
    (fun acc y => acc + (if isLeapYear y then 366 else 365)) 0
  let days1 := (List.range' 1 (month - 1)).foldl
    (fun acc m =>
      acc + (daysInMonthTable.getD (m - 1) 0 +
        (if m = 2 && isLeapYear year then 1 else 0))) days0
  let days := days1 + (day - 1)
  (days * 86400 + hour * 3600 + minute * 60 + second) % U32

/-- Modelled from the spec: the Gregorian leap-year rule stated in
words, "divisible by 4 and not by 100, unless divisible by 400". -/
def specLeapYear (y : Nat) : Bool :=
  decide (y % 400 = 0 ∨ (y % 4 = 0 ∧ y % 100 ≠ 0))

/-- Modelled from the spec: length of a month under the Gregorian
rule. -/
def specMonthLength (year month : Nat) : Nat :=
  if month = 2 then (if specLeapYear year then 29 else 28)
  else daysInMonthTable.getD (month - 1) 0

/-- Modelled from the spec: the number of days from 1970-01-01 to the
given date, as a sum over whole prior years and prior months plus the
day offset. -/
def specDaysFrom1970 (year month day : Nat) : Nat :=
  ((List.range' 1970 (year - 1970)).map
      (fun y => if specLeapYear y then 366 else 365)).sum +
    ((List.range' 1 (month - 1)).map (fun m => specMonthLength year m)).sum +
    (day - 1)

/-- `updateFixQuality` (GPS.h). -/
def updateFixQuality (g : GPSData) : GPSData :=
  if !g.valid && !g.timeValid then { g with fixQuality := 0 }
  else if g.valid && g.hdop ≤ 2 && 8 ≤ g.satellites && g.fixMode == 3 then
    { g with fixQuality := 3 }
  else if g.valid && g.hdop ≤ 5 && 6 ≤ g.satellites then { g with fixQuality := 2 }
  else if g.valid && 4 ≤ g.satellites then { g with fixQuality := 1 }
  else { g with fixQuality := 0 }

/-- `updateGPSData` (GPS.h): pull the decoder snapshot into the
`GPSData` record, derive `unixTime`, overlay the satellite table's
in-use count, raise threshold events and recompute the fix quality and
data age.  The debug log comparing the decoder count against the table
count has no state effect and is omitted. -/
def updateGPSData (st : GPSState) (tiny : DecoderSnapshot) (now : Nat) : GPSState :=
  let g0 := { st.gpsData with
    charsProcessed := tiny.charsProcessed
    sentencesFailed := tiny.failedChecksum
    totalSentences := tiny.passedChecksum }
  -- time section
  let w0 := st.watchdog
  let log0 := st.eventLog
  let timeOk := tiny.timeValid && tiny.dateValid
  let wasTimeInvalid := !g0.timeValid
  let g1 :=
    if timeOk then
      let ga := { g0 with
        timeValid := true
        hour := tiny.hour
        minute := tiny.minute
        second := tiny.second
        centisecond := tiny.centisecond
        day := tiny.day
        month := tiny.month
        year := tiny.year }
      let gb := if wasTimeInvalid then
          { ga with lockAcquiredTime := now, lockAcquiredFraction := ga.centisecond }
        else ga
      { gb with
        hadPreviousFix := true
        unixTime := computeUnixTime gb.year gb.month gb.day gb.hour gb.minute gb.second
        lastUpdateMillis := now }
    else { g0 with timeValid := false, hadPreviousFix := false }
  let p1 := condFire (timeOk && wasTimeInvalid) w0 log0 .gpsFixAcquired
    "GPS time acquired" now
  -- position section
  let wasPosInvalid := !g1.valid
  let g2 :=
    if tiny.locValid then
      { g1 with valid := true, latitude := tiny.lat, longitude := tiny.lng,
                lastUpdateMillis := now }
    else { g1 with valid := false }
  let p2 :=
    if tiny.locValid then
      condFire wasPosInvalid p1.1 p1.2 .gpsFixAcquired "GPS position fix acquired" now
    else
      condFire g1.valid p1.1 p1.2 .gpsFixLost "GPS position fix lost" now
  -- altitude / speed / course
  let g3 := if tiny.altValid then { g2 with altitude := tiny.altitudeMeters } else g2
  let g4 := if tiny.speedValid then { g3 with speed := tiny.speedKmph } else g3
  let g5 := if tiny.courseValid then { g4 with course := tiny.courseDeg } else g4
  -- satellite count comes from the table, not the decoder
  let g6 := { g5 with satellites := st.satTracking.totalInUse }
  let p3 := condFire (decide (g6.satellites < st.thresholds.minSatellites))
    p2.1 p2.2 .lowSatelliteCount
    ("Low satellite count: " ++ toString g6.satellites) now
  -- HDOP
  let g7 := if tiny.hdopValid then { g6 with hdop := tiny.hdopValue } else g6
  let p4 :=
    if tiny.hdopValid then
      condFire (decide (st.thresholds.maxHDOP < g7.hdop)) p3.1 p3.2 .highHdop
        "High HDOP" now
    else p3
  -- PDOP
  let p5 := condFire (decide (st.thresholds.maxPDOP < g7.pdop)) p4.1 p4.2 .highPdop
    "High PDOP" now
  let g8 := updateFixQuality g7
  let g9 := if 0 < g8.lastUpdateMillis then
      { g8 with updateAge := u32sub now g8.lastUpdateMillis }
    else g8
  { st with gpsData := g9, watchdog := p5.1, eventLog := p5.2 }

/-! ## Derived statistics and health -/

/-- `getAverageSNR` (GPS.h): mean SNR over tracked satellites with
nonzero SNR, optionally restricted to one constellation (0 = all). -/
def getAverageSNR (sats : List SatelliteInfo) (constellation : Nat) : ℚ :=
  let rel := sats.filter (fun s =>
    s.tracked && (constellation == 0 || s.constellation == constellation) &&
      s.snr != 0)
  if 0 < rel.length then mkRat ((rel.map (fun s => s.snr)).sum : Nat) rel.length
  else 0

/-- `updateConstellationCounts` (GPS.h): recompute the per-
constellation and in-use counts from tracked, in-use entries. -/
def updateConstellationCounts (st : GPSState) : GPSState :=
  let inUseSats := st.satTracking.satellites.filter (fun s => s.tracked && s.inUse)
  let countC (c : Nat) : Nat := (inUseSats.filter (fun s => s.constellation == c)).length
  { st with satTracking := { st.satTracking with
      gpsCount := countC 1
      glonassCount := countC 2
      galileoCount := countC 3
      beidouCount := countC 4
      qzssCount := countC 5
      totalInUse := inUseSats.length } }

/-- `calculateSatelliteScore` (GPS.h). -/
def calculateSatelliteScore (g : GPSData) : Nat :=
  if 12 ≤ g.satellites then 100
  else if 8 ≤ g.satellites then 80
  else if 6 ≤ g.satellites then 60
  else if 4 ≤ g.satellites then 40
  else if 1 ≤ g.satellites then 20
  else 0

/-- `calculateHDOPScore` (GPS.h). -/
def calculateHDOPScore (g : GPSData) : Nat :=
  if g.hdop == 0 then 0
  else if g.hdop ≤ 1 then 100
  else if g.hdop ≤ 2 then 80
  else if g.hdop ≤ 5 then 60
  else if g.hdop ≤ 10 then 40
  else if g.hdop ≤ 20 then 20
  else 10

/-- `calculateSNRScore` (GPS.h). -/
def calculateSNRScore (sats : List SatelliteInfo) : Nat :=
  let avgSNR := getAverageSNR sats 0
  if avgSNR == 0 then 0
  else if 40 ≤ avgSNR then 100
  else if 35 ≤ avgSNR then 80
  else if 30 ≤ avgSNR then 60
  else if 25 ≤ avgSNR then 40
  else if 20 ≤ avgSNR then 20
  else 10

/-- `calculateFixAgeScore` (GPS.h). -/
def calculateFixAgeScore (g : GPSData) : Nat :=
  if g.updateAge < 1000 then 100
  else if g.updateAge < 2000 then 80
  else if g.updateAge < 5000 then 60
  else if g.updateAge < 10000 then 40
  else if g.updateAge < 30000 then 20
  else 0

/-- `calculateFixModeScore` (GPS.h). -/
def calculateFixModeScore (g : GPSData) : Nat :=
  if g.fixMode == 3 then 100
  else if g.fixMode == 2 then 60
  else 0

/-- `updateAlerts` (GPS.h): first matching condition wins; suppressed
entirely during the startup grace period.  Numeric rendering inside
messages is abstracted. -/
def updateAlerts (st : GPSState) (now : Nat) : SystemHealth :=
  if now < st.thresholds.minUptime then st.health
  else
    let h0 := { st.health with
      criticalAlert := false
      warningAlert := false
      alertMessage := "" }
    if st.watchdog.unresponsive then
      { h0 with criticalAlert := true, alertMessage := "GPS module unresponsive" }
    else if !st.gpsData.timeValid && !st.gpsData.valid then
      { h0 with criticalAlert := true, alertMessage := "No GPS fix" }
    else if 10000 < st.gpsData.updateAge then
      { h0 with criticalAlert := true, alertMessage := "GPS data timeout" }
    else if st.gpsData.satellites < st.thresholds.minSatellites then
      { h0 with warningAlert := true
                alertMessage := "Low satellite count: " ++ toString st.gpsData.satellites }
    else if st.thresholds.maxHDOP < st.gpsData.hdop then
      { h0 with warningAlert := true, alertMessage := "High HDOP" }
    else if st.thresholds.maxPDOP < st.gpsData.pdop then
      { h0 with warningAlert := true, alertMessage := "High PDOP" }
    else
      let avgSNR := getAverageSNR st.satTracking.satellites 0
      if 0 < avgSNR ∧ avgSNR < st.thresholds.minAvgSNR then
        { h0 with warningAlert := true, alertMessage := "Low signal strength" }
      else h0

/-- `calculateHealth` (GPS.h): five component scores, the weighted GPS
score with weights 30/25/20/15/10 divided by 100, alerts, and the
calculation timestamp. -/
def calculateHealth (st : GPSState) (now : Nat) : GPSState :=
  let satelliteScore := calculateSatelliteScore st.gpsData
  let hdopScore := calculateHDOPScore st.gpsData
  let snrScore := calculateSNRScore st.satTracking.satellites
  let fixAgeScore := calculateFixAgeScore st.gpsData
  let fixModeScore := calculateFixModeScore st.gpsData
  let gpsScore := (satelliteScore * 30 + hdopScore * 25 + snrScore * 20 +
    fixAgeScore * 15 + fixModeScore * 10) / 100
  let st1 := { st with health := { st.health with
    satelliteScore := satelliteScore
    hdopScore := hdopScore
    snrScore := snrScore
    fixAgeScore := fixAgeScore
    fixModeScore := fixModeScore
    gpsScore := gpsScore
    overallScore := gpsScore } }
  { st1 with health := { updateAlerts st1 now with lastCalculation := now } }

/-! ## History, staleness, heartbeat, table ageing -/

/-- `addHistoricalPoint` (GPS.h): one sample per 10 s interval; the
mean SNR is computed inline over tracked entries with nonzero SNR. -/
def addHistoricalPoint (st : GPSState) (now : Nat) : GPSState :=
  if u32sub now st.history.lastRecordTime < 10000 then st
  else
    let withSnr := st.satTracking.satellites.filter (fun s => s.tracked && 0 < s.snr)
    let avgSNR : ℚ :=
      if 0 < withSnr.length then
        mkRat ((withSnr.map (fun s => s.snr)).sum : Nat) withSnr.length
      else 0
    let point : HistoricalDataPoint := {
      timestamp := now
      satelliteCount := st.gpsData.satellites
      hdop := st.gpsData.hdop
      pdop := st.gpsData.pdop
      fixQuality := st.gpsData.fixQuality
      fixMode := st.gpsData.fixMode
      avgSNR := avgSNR
      hasValidFix := st.gpsData.valid }
    { st with history := {
        points := if st.history.head < st.history.points.length
                  then st.history.points.set st.history.head point
                  else st.history.points ++ [point]
        head := (st.history.head + 1) % HISTORY_BUFFER_SIZE
        count := if st.history.count < HISTORY_BUFFER_SIZE
                 then st.history.count + 1
                 else st.history.count
        lastRecordTime := now } }

/-- `checkStaleness` (GPS.h): past the 10 s data timeout the validity
flags are cleared, raising a rate-limited timeout event. -/
def checkStaleness (st : GPSState) (now : Nat) : GPSState :=
  if 10000 < st.gpsData.updateAge then
    let p := condFire (st.gpsData.valid || st.gpsData.timeValid)
      st.watchdog st.eventLog .gpsTimeout "GPS data timeout" now
    { st with
      gpsData := { st.gpsData with valid := false, timeValid := false }
      watchdog := p.1
      eventLog := p.2 }
  else st

/-- `checkHeartbeat` (GPS.h): no byte from the module for 10 s raises
the unresponsive flag (only together with a fired event). -/
def checkHeartbeat (st : GPSState) (now : Nat) : GPSState :=
  if 10000 < u32sub now st.watchdog.lastCharReceived then
    if !st.watchdog.unresponsive then
      let p := shouldFireEvent st.watchdog .gpsUnresponsive now
      if p.2 then
        { st with
          watchdog := { p.1 with unresponsive := true }
          eventLog := addEvent st.eventLog .gpsUnresponsive
            "GPS module not responding" now }
      else { st with watchdog := p.1 }
    else st
  else st

/-- `clearSatelliteTracking` (GPS.h): zero the counts and untrack every
slot; in the list model the table becomes empty. -/
def clearSatelliteTracking (st : GPSState) : GPSState :=
  { st with satTracking := { st.satTracking with
      satellites := []
      gpsCount := 0
      glonassCount := 0
      galileoCount := 0
      beidouCount := 0
      qzssCount := 0
      totalInUse := 0 } }

/-- `cleanupStaleSatellites` (GPS.h): clear the whole table once it has
not been touched for more than 30 s.  Note that no code path in the
repository ever calls this function. -/
def cleanupStaleSatellites (st : GPSState) (now : Nat) : GPSState :=
  if 30000 < u32sub now st.satTracking.lastUpdate then clearSatelliteTracking st
  else st

/-- `GPS::process` (GPS.h): consume serial input (abstracted to the
flag `anyChars` and the list of complete sentences finished this
cycle), then run the per-cycle update pipeline.  As in the source, the
pipeline is updateGPSData, updateConstellationCounts,
addHistoricalPoint, checkStaleness, checkHeartbeat, calculateHealth —
and nothing else. -/
def processCycle (st : GPSState) (anyChars : Bool) (lines : List NmeaSentence)
    (tiny : DecoderSnapshot) (now : Nat) : GPSState :=
  let st1 :=
    if anyChars then
      let w := { st.watchdog with lastCharReceived := now }
      if w.unresponsive then
        { st with
          watchdog := { w with unresponsive := false }
          eventLog := addEvent st.eventLog .systemBoot "GPS module recovered" now }
      else { st with watchdog := w }
    else st
  let st2 := lines.foldl (fun s line => parseNMEASentence s line now) st1
  let st3 := updateGPSData st2 tiny now
  let st4 := updateConstellationCounts st3
  let st5 := addHistoricalPoint st4 now
  let st6 := checkStaleness st5 now
  let st7 := checkHeartbeat st6 now
  calculateHealth st7 now

/-! ## NTP.h data structures -/

def NTP_PACKET_SIZE : Nat := 48

def NTP_EPOCH_OFFSET : Nat := 2208988800

def NTP_AGGRESSIVE_THRESHOLD : Nat := 10

/-- `NTPConfig` (NTP.h); the 4-character reference id is the list of
its bytes. -/
structure NTPConfig where
  enabled : Bool
  port : Nat
  rateLimitEnabled : Bool
  perClientMinInterval : Nat
  globalMaxRequestsPerSec : Nat
  maxClients : Nat
  broadcastEnabled : Bool
  broadcastInterval : Nat
  autoBroadcast : Bool
  stratum : Nat
  referenceID : List Nat
  minSatellites : Nat
  maxHDOP : ℚ
  maxFixAge : Nat
deriving Repr, DecidableEq

/-- `NTPClient` (NTP.h); the IP address is abstracted to a number. -/
structure NTPClient where
  ip : Nat
  lastRequest : Nat
  requestCount : Nat
  lastPollInterval : Nat
  averageInterval : Nat
  aggressiveCount : Nat
  aggressive : Bool
  rateLimited : Bool
  version : Nat
deriving Repr, DecidableEq

/-- `NTPMetrics` (NTP.h); `clientVersions` and `requestsByStratum` are
the 5- and 17-entry tally arrays, `averageResponseTime` (a C float) is
a rational. -/
structure NTPMetrics where
  totalRequests : Nat
  validResponses : Nat
  invalidRequests : Nat
  rateLimitedRequests : Nat
  kodSent : Nat
  noGPSDropped : Nat
  poorQualityDropped : Nat
  broadcastsSent : Nat
  averageResponseTime : ℚ
  peakResponseTime : Nat
  lastRequestTime : Nat
  uniqueClients : Nat
  clientVersions : List Nat
  requestsByStratum : List Nat
  currentlyServing : Bool
  servingStartTime : Nat
  lastServingStopTime : Nat
deriving Repr, DecidableEq

/-- `GlobalRateLimit` (NTP.h). -/
structure GlobalRateLimit where
  requestsThisSecond : Nat
  lastSecondReset : Nat
  droppedThisSecond : Nat
deriving Repr, DecidableEq

/-- `NTPTimestamp` (NTP.h). -/
structure NTPTimestamp where
  seconds : Nat
  fraction : Nat
deriving Repr, DecidableEq

/-- The function-local static variables of `microsToNTP`
(`lastGPSUpdateMicros`, `gpsUpdateMillis`), made explicit state. -/
structure MicrosRef where
  lastGPSUpdateMicros : Nat
  gpsUpdateMillis : Nat
deriving Repr, DecidableEq

/-- The mutable state of one `NTP` object relevant to request
handling. -/
structure NTPState where
  metrics : NTPMetrics
  globalRateLimit : GlobalRateLimit
  clients : List NTPClient
  microsRef : MicrosRef
deriving Repr, DecidableEq

/-- What the server does with one datagram: nothing, a Kiss-o'-Death
denial, or a normal reply. -/
inductive NTPAction where
  | silent
  | kiss (pkt : List Nat)
  | reply (pkt : List Nat)
deriving Repr, DecidableEq

/-! ## Packet helpers -/

/-- A 48-byte packet buffer, modelled by its byte at each offset. -/
def emptyPacket : Nat → Nat := fun _ => 0

/-- Write one byte of the buffer (`packet[i] = v`). -/
def updB (f : Nat → Nat) (i v : Nat) : Nat → Nat :=
  fun j => if j = i then v else f j

/-- `memcpy(&packet[dst], &src[srcOff], n)` as a functional overlay. -/
def copyBytes (f : Nat → Nat) (dst srcOff n : Nat) (src : Nat → Nat) : Nat → Nat :=
  fun j => if dst ≤ j ∧ j < dst + n then src (j - dst + srcOff) else f j

/-- Materialize the 48 bytes of a packet buffer. -/
def packetBytes (f : Nat → Nat) : List Nat :=
  (List.range NTP_PACKET_SIZE).map f

/-- `extractVersion` (NTP.h): `(packet[0] >> 3) & 0x07`. -/
def extractVersion (packet : Nat → Nat) : Nat :=
  (packet 0 >>> 3) &&& 7

/-- `extractPollInterval` (NTP.h): the poll byte clamped to 4..10. -/
def extractPollInterval (packet : Nat → Nat) : Nat :=
  let poll := packet 2
  let poll := if poll < 4 then 4 else poll
  if poll > 10 then 10 else poll

/-- `extractStratum` (NTP.h). -/
def extractStratum (packet : Nat → Nat) : Nat :=
  packet 1

/-- `validateNTPRequest` (NTP.h): version 3 or 4, mode 3 (client),
stratum at most 16.  The originate-timestamp scan in the source has no
effect on the result and is omitted. -/
def validateNTPRequest (packet : Nat → Nat) : Bool :=
  let version := extractVersion packet
  if version < 3 || version > 4 then false
  else if packet 0 &&& 7 != 3 then false
  else if extractStratum packet > 16 then false
  else true

/-- `isGPSQualitySufficient` (NTP.h): valid time, enough satellites,
low enough HDOP, fresh enough fix. -/
def isGPSQualitySufficient (g : GPSData) (cfg : NTPConfig) : Bool :=
  if !g.timeValid then false
  else if g.satellites < cfg.minSatellites then false
  else if cfg.maxHDOP < g.hdop then false
  else if cfg.maxFixAge < g.updateAge then false
  else true

/-- `calculateRootDelayDispersion` (NTP.h); the C float arithmetic is
carried out in rationals. -/
def calculateRootDelayDispersion (g : GPSData) : ℚ × ℚ :=
  let rootDelay : ℚ :=
    if g.pdop < 2 then 1 / 1000
    else if g.pdop < 5 then 5 / 1000
    else 10 / 1000
  let rootDispersion : ℚ := g.updateAge / 1000 + g.hdop * (1 / 1000)
  (rootDelay, if 1 < rootDispersion then 1 else rootDispersion)

/-- `gpsTimeToNTP` (NTP.h): unix seconds shifted to the 1900 epoch and
centiseconds scaled to the 32-bit binary fraction. -/
def gpsTimeToNTP (g : GPSData) : NTPTimestamp :=
  { seconds := u32 (g.unixTime + NTP_EPOCH_OFFSET)
    fraction := u32 (g.centisecond * 4294967296 / 100) }

/-- `microsToNTP` (NTP.h): GPS base time plus the microseconds elapsed
since the last GPS update, tracked through the static reference pair. -/
def microsToNTP (g : GPSData) (currentMicros : Nat) (r : MicrosRef) :
    NTPTimestamp × MicrosRef :=
  let ts := gpsTimeToNTP g
  let r1 := if g.lastUpdateMillis != r.gpsUpdateMillis then
      { lastGPSUpdateMicros := currentMicros, gpsUpdateMillis := g.lastUpdateMillis }
    else r
  let elapsedMicros := u32sub currentMicros r1.lastGPSUpdateMicros
  let microsFraction := elapsedMicros * 4294967296 / 1000000
  let newFraction := ts.fraction + microsFraction
  if 4294967295 < newFraction then
    ({ seconds := u32 (ts.seconds + newFraction / 4294967296)
       fraction := newFraction % 4294967296 }, r1)
  else ({ ts with fraction := newFraction }, r1)

/-- `writeNTPTimestamp` (NTP.h): eight big-endian byte stores. -/
def writeNTPTimestamp (f : Nat → Nat) (offset : Nat) (ts : NTPTimestamp) :
    Nat → Nat :=
  let f0 := updB f (offset + 0) ((ts.seconds >>> 24) &&& 255)
  let f1 := updB f0 (offset + 1) ((ts.seconds >>> 16) &&& 255)
  let f2 := updB f1 (offset + 2) ((ts.seconds >>> 8) &&& 255)
  let f3 := updB f2 (offset + 3) (ts.seconds &&& 255)
  let f4 := updB f3 (offset + 4) ((ts.fraction >>> 24) &&& 255)
  let f5 := updB f4 (offset + 5) ((ts.fraction >>> 16) &&& 255)
  let f6 := updB f5 (offset + 6) ((ts.fraction >>> 8) &&& 255)
  updB f6 (offset + 7) (ts.fraction &&& 255)

/-- `buildNTPPacket` (NTP.h): construct the 48-byte reply from the
request and the GPS snapshot.  The two `microsToNTP` calls thread the
static reference pair.  The truncating `(uint32_t)(x * 65536.0)`
conversions are floors of the rational values. -/
def buildNTPPacket (cfg : NTPConfig) (g : GPSData) (request : Nat → Nat)
    (receiveTimeMicros transmitTimeMicros : Nat) (r : MicrosRef) :
    (Nat → Nat) × MicrosRef :=
  let leapIndicator : Nat := if !g.timeValid || 2000 < g.updateAge then 3 else 0
  let version := extractVersion request
  let f0 := updB emptyPacket 0 ((leapIndicator <<< 6) ||| (version <<< 3) ||| 4)
  let f1 := updB f0 1 cfg.stratum
  let f2 := updB f1 2 (extractPollInterval request)
  let f3 := updB f2 3 236
  let rdPair := calculateRootDelayDispersion g
  let rootDelay := u32 (rdPair.1 * 65536).floor.toNat
  let f4 := updB f3 4 ((rootDelay >>> 24) &&& 255)
  let f5 := updB f4 5 ((rootDelay >>> 16) &&& 255)
  let f6 := updB f5 6 ((rootDelay >>> 8) &&& 255)
  let f7 := updB f6 7 (rootDelay &&& 255)
  let rootDispersion := u32 (rdPair.2 * 65536).floor.toNat
  let f8 := updB f7 8 ((rootDispersion >>> 24) &&& 255)
  let f9 := updB f8 9 ((rootDispersion >>> 16) &&& 255)
  let f10 := updB f9 10 ((rootDispersion >>> 8) &&& 255)
  let f11 := updB f10 11 (rootDispersion &&& 255)
  let f12 := copyBytes f11 12 0 4 (fun k => cfg.referenceID.getD k 0)
  let refSeconds := u32 (g.unixTime + NTP_EPOCH_OFFSET)
  let refFraction := u32 (g.lockAcquiredFraction * 4294967296 / 100)
  let f16 := writeNTPTimestamp f12 16 { seconds := refSeconds, fraction := refFraction }
  let f24 := copyBytes f16 24 40 8 request
  let recvPair := microsToNTP g receiveTimeMicros r
  let f32 := writeNTPTimestamp f24 32 recvPair.1
  let sendPair := microsToNTP g transmitTimeMicros recvPair.2
  let f40 := writeNTPTimestamp f32 40 sendPair.1
  (f40, sendPair.2)

/-- The Kiss-o'-Death packet of `sendKissOfDeath` (NTP.h): flags byte
0xDC, stratum 0, the 4-character kiss code at offsets 12-15, all
timestamps zero. -/
def kissPacket (kissCode : List Nat) : Nat → Nat :=
  let f0 := updB emptyPacket 0 220
  let f1 := updB f0 1 0
  copyBytes f1 12 0 4 (fun k => kissCode.getD k 0)

/-- ASCII bytes of the "DENY" kiss code. -/
def denyCode : List Nat := [68, 69, 78, 89]

/-- ASCII bytes of the "RATE" kiss code. -/
def rateCode : List Nat := [82, 65, 84, 69]

/-- `sendKissOfDeath` (NTP.h): build the kiss packet and count it. -/
def sendKissOfDeath (m : NTPMetrics) (kissCode : List Nat) :
    NTPMetrics × (Nat → Nat) :=
  ({ m with kodSent := inc32 m.kodSent }, kissPacket kissCode)

/-! ## Rate limiting -/

/-- `checkGlobalRateLimit` (NTP.h): 1-second window reset, ceiling
check, and budget consumption on admission. -/
def checkGlobalRateLimit (grl : GlobalRateLimit) (cfg : NTPConfig) (now : Nat) :
    GlobalRateLimit × Bool :=
  let g1 :=
    if 1000 < u32sub now grl.lastSecondReset then
      { requestsThisSecond := 0, droppedThisSecond := 0, lastSecondReset := now }
    else grl
  if cfg.globalMaxRequestsPerSec ≤ g1.requestsThisSecond then (g1, false)
  else ({ g1 with requestsThisSecond := g1.requestsThisSecond + 1 }, true)

/-- A placeholder for the indeterminate fields of a freshly allocated
client slot; `lastPollInterval` and `version` are not initialized by
`findOrCreateClient` in the source. -/
def blankClient : NTPClient :=
  { ip := 0, lastRequest := 0, requestCount := 0, lastPollInterval := 0,
    averageInterval := 0, aggressiveCount := 0, aggressive := false,
    rateLimited := false, version := 0 }

/-- Reinitialize a slot for a new address, as both branches of
`findOrCreateClient` do (the fields the source does not assign keep
their previous slot contents). -/
def resetClientSlot (c : NTPClient) (ip : Nat) : NTPClient :=
  { c with
    ip := ip, requestCount := 0, lastRequest := 0, aggressiveCount := 0,
    aggressive := false, rateLimited := false, averageInterval := 0 }

/-- The oldest-entry scan of `findOrCreateClient`: the first index with
the strictly smallest `lastRequest`. -/
def oldestClientIdx (clients : List NTPClient) : Nat :=
  (List.range clients.length).foldl
    (fun best i =>
      if (clients.getD i blankClient).lastRequest <
          (clients.getD best blankClient).lastRequest
      then i else best) 0

/-- `findOrCreateClient` (NTP.h): linear lookup by address, then a new
slot while below `maxClients`, else eviction of the oldest entry.
Returns the updated table, the slot index, and the updated metrics. -/
def findOrCreateClient (clients : List NTPClient) (cfg : NTPConfig)
    (m : NTPMetrics) (ip : Nat) : List NTPClient × Nat × NTPMetrics :=
  match clients.findIdx? (fun c => c.ip == ip) with
  | some i => (clients, i, m)
  | none =>
    if clients.length < cfg.maxClients then
      (clients ++ [resetClientSlot blankClient ip], clients.length,
        { m with uniqueClients := clients.length + 1 })
    else
      let i := oldestClientIdx clients
      (clients.set i (resetClientSlot (clients.getD i blankClient) ip), i, m)

/-- `updateClientStats` (NTP.h): request count, last poll interval and
the 3/4-weighted average interval (32-bit arithmetic). -/
def updateClientStats (c : NTPClient) (pollInterval now : Nat) : NTPClient :=
  let c1 := { c with
    requestCount := inc32 c.requestCount
    lastPollInterval := pollInterval }
  if c1.averageInterval = 0 then
    { c1 with averageInterval := u32sub now c1.lastRequest }
  else
    let thisInterval := u32sub now c1.lastRequest
    { c1 with averageInterval := u32 (c1.averageInterval * 3 + thisInterval) / 4 }

/-- `checkClientRateLimit` (NTP.h): deny and escalate when the request
arrives sooner than `perClientMinInterval` after the slot's
`lastRequest`; otherwise record the accepted request. -/
def checkClientRateLimit (clients : List NTPClient) (cfg : NTPConfig)
    (m : NTPMetrics) (now ip pollInterval : Nat) :
    List NTPClient × NTPMetrics × Bool :=
  let fc := findOrCreateClient clients cfg m ip
  let cs := fc.1
  let i := fc.2.1
  let c := cs.getD i blankClient
  let timeSinceLastRequest := u32sub now c.lastRequest
  if timeSinceLastRequest < cfg.perClientMinInterval then
    let newCount := inc16 c.aggressiveCount
    let c1 := { c with
      rateLimited := true
      aggressiveCount := newCount
      aggressive := if NTP_AGGRESSIVE_THRESHOLD < newCount then true else c.aggressive }
    (cs.set i c1, fc.2.2, false)
  else
    let c1 := updateClientStats c pollInterval now
    (cs.set i { c1 with lastRequest := now, rateLimited := false }, fc.2.2, true)

/-! ## Request handling -/

/-- `handleNTPRequests` (NTP.h), one datagram: size gate, global rate
limit, format validation, GPS quality gate, per-client rate limit, and
finally the normal reply with its metrics updates.  All `millis()`
reads within the handler are the single instant `now`; the receive and
transmit `micros()` captures are passed in. -/
def handleNTPRequests (cfg : NTPConfig) (g : GPSData) (st : NTPState)
    (packetSize : Nat) (packet : Nat → Nat) (clientIP : Nat)
    (now receiveTimeMicros transmitTimeMicros : Nat) : NTPState × NTPAction :=
  if packetSize ≠ NTP_PACKET_SIZE then
    (if 0 < packetSize then
      { st with metrics :=
          { st.metrics with invalidRequests := inc32 st.metrics.invalidRequests } }
     else st, .silent)
  else
    let gp := checkGlobalRateLimit st.globalRateLimit cfg now
    if !gp.2 then
      ({ st with
          metrics := { st.metrics with
            rateLimitedRequests := inc32 st.metrics.rateLimitedRequests }
          globalRateLimit := { gp.1 with
            droppedThisSecond := inc32 gp.1.droppedThisSecond } }, .silent)
    else
      let st1 := { st with globalRateLimit := gp.1 }
      if !validateNTPRequest packet then
        ({ st1 with metrics :=
            { st1.metrics with invalidRequests := inc32 st1.metrics.invalidRequests } },
          .silent)
      else if !isGPSQualitySufficient g cfg then
        let m1 := { st1.metrics with noGPSDropped := inc32 st1.metrics.noGPSDropped }
        let kp := sendKissOfDeath m1 denyCode
        ({ st1 with metrics := kp.1 }, .kiss (packetBytes kp.2))
      else
        let pollInterval := extractPollInterval packet
        let rc :=
          if cfg.rateLimitEnabled then
            checkClientRateLimit st1.clients cfg st1.metrics now clientIP pollInterval
          else (st1.clients, st1.metrics, true)
        if !rc.2.2 then
          let m1 := { rc.2.1 with
            rateLimitedRequests := inc32 rc.2.1.rateLimitedRequests }
          let kp := sendKissOfDeath m1 rateCode
          ({ st1 with clients := rc.1, metrics := kp.1 }, .kiss (packetBytes kp.2))
        else
          let bp := buildNTPPacket cfg g packet receiveTimeMicros transmitTimeMicros
            st1.microsRef
          let m1 := rc.2.1
          let m2 := { m1 with
            totalRequests := inc32 m1.totalRequests
            validResponses := inc32 m1.validResponses
            lastRequestTime := now }
          -- responseTime = millis() - requestStart, a single instant here
          let responseTime := u32sub now now
          let m3 := { m2 with
            peakResponseTime := if m2.peakResponseTime < responseTime
                                then responseTime else m2.peakResponseTime
            averageResponseTime :=
              if m2.averageResponseTime == 0 then (responseTime : ℚ)
              else m2.averageResponseTime * (9 / 10) + (responseTime : ℚ) * (1 / 10) }
          let version := extractVersion packet
          let versions :=
            if 1 ≤ version ∧ version ≤ 4 then
              m3.clientVersions.set (version - 1) (m3.clientVersions.getD (version - 1) 0 + 1)
            else
              m3.clientVersions.set 4 (m3.clientVersions.getD 4 0 + 1)
          let m4 := { m3 with clientVersions := versions }
          let clientStratum := extractStratum packet
          let byStratum :=
            if clientStratum ≤ 16 then
              m4.requestsByStratum.set clientStratum (m4.requestsByStratum.getD clientStratum 0 + 1)
            else m4.requestsByStratum
          let m5 := { m4 with requestsByStratum := byStratum }
          ({ st1 with clients := rc.1, metrics := m5, microsRef := bp.2 },
            .reply (packetBytes bp.1))

/-! ## Concrete fixtures

Baseline states mirroring `begin()` initialization, plus the concrete
scenarios exercised by the theorems below. -/

/-- `getDefaultConfig` (NTP.h); the reference id bytes are "GPS" and a
NUL. -/
def getDefaultConfig : NTPConfig :=
  { enabled := true, port := 123, rateLimitEnabled := true,
    perClientMinInterval := 1000, globalMaxRequestsPerSec := 1000,
    maxClients := 50, broadcastEnabled := false, broadcastInterval := 64,
    autoBroadcast := true, stratum := 1, referenceID := [71, 80, 83, 0],
    minSatellites := 4, maxHDOP := 10, maxFixAge := 5000 }

/-- Zeroed metrics, as `memset` in `NTP::begin` produces. -/
def initMetrics : NTPMetrics :=
  { totalRequests := 0, validResponses := 0, invalidRequests := 0,
    rateLimitedRequests := 0, kodSent := 0, noGPSDropped := 0,
    poorQualityDropped := 0, broadcastsSent := 0, averageResponseTime := 0,
    peakResponseTime := 0, lastRequestTime := 0, uniqueClients := 0,
    clientVersions := List.replicate 5 0,
    requestsByStratum := List.replicate 17 0,
    currentlyServing := false, servingStartTime := 0, lastServingStopTime := 0 }

/-- NTP server state right after `begin()` at time 0. -/
def initNTPState : NTPState :=
  { metrics := initMetrics
    globalRateLimit := { requestsThisSecond := 0, lastSecondReset := 0,
                         droppedThisSecond := 0 }
    clients := []
    microsRef := { lastGPSUpdateMicros := 0, gpsUpdateMillis := 0 } }

/-- A server state whose 1-second global window (opened at t = 5000)
has already admitted the configured maximum of 1000 requests. -/
def saturatedNTPState : NTPState :=
  { initNTPState with
    globalRateLimit := { requestsThisSecond := 1000, lastSecondReset := 5000,
                         droppedThisSecond := 0 } }

/-- A zeroed GPS snapshot (`memset(&gpsData, 0, ...)`). -/
def zeroGPSData : GPSData :=
  { timeValid := false, hour := 0, minute := 0, second := 0, centisecond := 0,
    day := 0, month := 0, year := 0, unixTime := 0, lockAcquiredTime := 0,
    lockAcquiredFraction := 0, hadPreviousFix := false, valid := false,
    latitude := 0, longitude := 0, altitude := 0, speed := 0, course := 0,
    satellites := 0, hdop := 0, pdop := 0, vdop := 0, fixQuality := 0,
    fixMode := 0, lastUpdateMillis := 0, updateAge := 0, charsProcessed := 0,
    sentencesFailed := 0, totalSentences := 0, lastValidSentence := "" }

/-- A GPS snapshot with valid, fresh time but only 3 satellites in
use. -/
def threeSatSnapshot : GPSData :=
  { zeroGPSData with
    timeValid := true, satellites := 3, hdop := 1, updateAge := 100 }

/-- A GPS snapshot that passes the default quality gate. -/
def goodSnapshot : GPSData :=
  { zeroGPSData with
    timeValid := true, satellites := 8, hdop := 1, updateAge := 100 }

/-- A well-formed client request: leap 0, version 3, mode 3, poll 6. -/
def clientPacket : Nat → Nat :=
  fun i => if i = 0 then 27 else if i = 2 then 6 else 0

/-- A malformed request: version 2 (flags byte `(0 << 6) | (2 << 3) | 3`). -/
def badVersionPacket : Nat → Nat :=
  fun i => if i = 0 then 19 else 0

/-- A baseline GPS object state as `GPS::begin` leaves it (before any
sentence arrives). -/
def initGPSState : GPSState :=
  { config := { gpgsvEnabled := false, gpgsaEnabled := false,
                configurationComplete := false, lastConfigCheck := 0,
                updateRate := 1 }
    gpsData := zeroGPSData
    satTracking := { satellites := [], lastUpdate := 0, gpsCount := 0,
                     glonassCount := 0, galileoCount := 0, beidouCount := 0,
                     qzssCount := 0, totalInUse := 0 }
    history := { points := [], head := 0, count := 0, lastRecordTime := 0 }
    eventLog := { events := [], head := 0, count := 0 }
    health := { overallScore := 0, gpsScore := 0, satelliteScore := 0,
                hdopScore := 0, snrScore := 0, fixAgeScore := 0,
                fixModeScore := 0, criticalAlert := false, warningAlert := false,
                alertMessage := "", lastCalculation := 0 }
    thresholds := {}
    watchdog := { lastCharReceived := 0, lastEventTime := List.replicate 12 0,
                  unresponsive := false } }

/-- The health-scenario state: ten satellites in use, each tracked with
SNR 38, HDOP 1.5, fix age 500 ms, 3D fix. -/
def healthScenarioState : GPSState :=
  { initGPSState with
    gpsData := { zeroGPSData with
      timeValid := true, valid := true, satellites := 10, hdop := mkRat 3 2,
      updateAge := 500, fixMode := 3 }
    satTracking := { initGPSState.satTracking with
      satellites := (List.range 10).map (fun i =>
        { prn := i + 1, constellation := 1, elevation := 45, azimuth := 90,
          snr := 38, inUse := true, tracked := true })
      totalInUse := 10 } }

/-- A table state holding one tracked satellite, last touched at time
0. -/
def oneSatState : GPSState :=
  { initGPSState with
    satTracking := { initGPSState.satTracking with
      satellites := [{ prn := 5, constellation := 1, elevation := 45,
                       azimuth := 90, snr := 40, inUse := true, tracked := true }]
      totalInUse := 1 } }

/-- A decoder snapshot with nothing valid (no sentence decoded yet). -/
def idleDecoder : DecoderSnapshot :=
  { timeValid := false, dateValid := false, hour := 0, minute := 0, second := 0,
    centisecond := 0, day := 0, month := 0, year := 0, locValid := false,
    lat := 0, lng := 0, altValid := false, altitudeMeters := 0,
    speedValid := false, speedKmph := 0, courseValid := false, courseDeg := 0,
    satellitesValid := false, satellitesValue := 0, hdopValid := false,
    hdopValue := 0, charsProcessed := 0, failedChecksum := 0,
    passedChecksum := 0 }

/-! ## Support lemmas -/

theorem foldl_add_map (f : Nat → Nat) :
    ∀ (l : List Nat) (a : Nat),
      l.foldl (fun acc x => acc + f x) a = a + (l.map f).sum := by
  intro l
  induction l with
  | nil => intro a; simp
  | cons x xs ih =>
    intro a
    simp only [List.foldl_cons, List.map_cons, List.sum_cons]
    rw [ih]
    omega

theorem foldl_add_map2 (f g : Nat → Nat) :
    ∀ (l : List Nat) (a : Nat),
      l.foldl (fun acc x => acc + f x + g x) a =
        a + (l.map (fun x => f x + g x)).sum := by
  intro l
  induction l with
  | nil => intro a; simp
  | cons x xs ih =>
    intro a
    simp only [List.foldl_cons, List.map_cons, List.sum_cons]
    rw [ih]
    omega

theorem specLeapYear_eq (y : Nat) : specLeapYear y = isLeapYear y := by
  unfold specLeapYear isLeapYear
  by_cases h4 : y % 4 = 0 <;> by_cases h100 : y % 100 = 0 <;>
    by_cases h400 : y % 400 = 0 <;> simp [h4, h100, h400]

theorem specMonthLength_eq (year m : Nat) :
    specMonthLength year m =
      daysInMonthTable.getD (m - 1) 0 +
        (if m = 2 && isLeapYear year then 1 else 0) := by
  unfold specMonthLength
  by_cases hm : m = 2 <;> by_cases hl : isLeapYear year <;>
    simp [hm, hl, specLeapYear_eq, daysInMonthTable]

/-! ## Claim C6 — unix time derivation -/

/-- Claim C6, counterexample: at the valid calendar date 2107-01-01
00:00:00 the stored unix timestamp does not equal
86400 times the day count from 1970-01-01 (the 32-bit field has wrapped
around). -/
theorem c6_counterexample :
    computeUnixTime 2107 1 1 0 0 0 ≠
      86400 * specDaysFrom1970 2107 1 1 + 3600 * 0 + 60 * 0 + 0 := by
  decide

/-- Claim C6 (amended): for every calendar input the snapshot unix
timestamp computed by `updateGPSData` equals
`86400 * (days since 1970-01-01 under the Gregorian leap-year rule)
 + 3600 * hour + 60 * minute + second`, reduced modulo 2^32 — the
field is a 32-bit unsigned integer. -/
theorem c6_unixtime (year month day hour minute second : Nat) :
    computeUnixTime year month day hour minute second =
      (86400 * specDaysFrom1970 year month day +
        3600 * hour + 60 * minute + second) % U32 := by
  simp only [computeUnixTime, specDaysFrom1970]
  rw [foldl_add_map, foldl_add_map]
  simp only [specMonthLength_eq, specLeapYear_eq]
  congr 1
  ring

/-! ## Claim C5 — health scoring scenario -/

/-- Claim C5, counterexample: in the stated scenario (10 satellites in
use, HDOP 1.5, mean tracked SNR 38, fix age 500 ms, 3D fix) the code
computes the claimed component scores but the overall score is not
84. -/
theorem c5_counterexample :
    (calculateHealth healthScenarioState 1000).health.satelliteScore = 80 ∧
    (calculateHealth healthScenarioState 1000).health.hdopScore = 80 ∧
    (calculateHealth healthScenarioState 1000).health.snrScore = 80 ∧
    (calculateHealth healthScenarioState 1000).health.fixAgeScore = 100 ∧
    (calculateHealth healthScenarioState 1000).health.fixModeScore = 100 ∧
    (calculateHealth healthScenarioState 1000).health.overallScore ≠ 84 := by
  decide

/-- Claim C5 (amended): in that scenario the five component scores are
(80, 80, 80, 100, 100) and the overall health score equals
(80·30 + 80·25 + 80·20 + 100·15 + 100·10) / 100 = 85. -/
theorem c5_health_scenario :
    (calculateHealth healthScenarioState 1000).health.satelliteScore = 80 ∧
    (calculateHealth healthScenarioState 1000).health.hdopScore = 80 ∧
    (calculateHealth healthScenarioState 1000).health.snrScore = 80 ∧
    (calculateHealth healthScenarioState 1000).health.fixAgeScore = 100 ∧
    (calculateHealth healthScenarioState 1000).health.fixModeScore = 100 ∧
    (calculateHealth healthScenarioState 1000).health.overallScore =
      (80 * 30 + 80 * 25 + 80 * 20 + 100 * 15 + 100 * 10) / 100 ∧
    (calculateHealth healthScenarioState 1000).health.overallScore = 85 := by
  decide

/-! ## Claim C4 — satellite age-out is dead code -/

/-- Claim C4: a full `process()` cycle run 31 s after the satellite
table was last touched leaves the tracked entry tracked — `process`
never invokes `cleanupStaleSatellites` (the function has no caller in
the repository), although running that function at the same instant
would clear every tracked flag as the claim describes. -/
theorem c4_ageing_never_runs :
    30000 < u32sub 31000 oneSatState.satTracking.lastUpdate ∧
    ((processCycle oneSatState false [] idleDecoder 31000).satTracking.satellites.any
      (fun s => s.tracked)) = true ∧
    ((cleanupStaleSatellites oneSatState 31000).satTracking.satellites.any
      (fun s => s.tracked)) = false := by
  decide

/-! ## Claim C8 — originate timestamp echoes the request transmit field -/

/-- Claim C8: in every normal reply built by `buildNTPPacket`, whatever
the configuration, GPS snapshot, timestamps and request contents, the
eight originate-timestamp bytes at offsets 24-31 are byte-identical to
the request's transmit-timestamp bytes at offsets 40-47. -/
theorem c8_originate_echo (cfg : NTPConfig) (g : GPSData) (request : Nat → Nat)
    (receiveTimeMicros transmitTimeMicros : Nat) (r : MicrosRef) :
    (List.range 8).map (fun k =>
        (buildNTPPacket cfg g request receiveTimeMicros transmitTimeMicros r).1 (24 + k)) =
      (List.range 8).map (fun k => request (40 + k)) := by
  simp [buildNTPPacket, writeNTPTimestamp, updB, copyBytes, List.range_succ]

/-- Claim C9: in every normal reply, byte 2 is the request's poll byte
clamped into [4, 10]: a value below 4 is echoed as 4, a value above 10
as 10, and an in-range value verbatim. -/
theorem c9_poll_clamp (cfg : NTPConfig) (g : GPSData) (request : Nat → Nat)
    (receiveTimeMicros transmitTimeMicros : Nat) (r : MicrosRef) :
    (buildNTPPacket cfg g request receiveTimeMicros transmitTimeMicros r).1 2 =
      (if request 2 < 4 then 4 else if 10 < request 2 then 10 else request 2) := by
  simp only [buildNTPPacket, writeNTPTimestamp, updB, copyBytes, extractPollInterval]
  norm_num
  by_cases h4 : request 2 < 4 <;> simp [h4]

/-! ## Claim C1 — quality-gate admission -/

theorem gpsQualitySufficient_iff (g : GPSData) (cfg : NTPConfig) :
    isGPSQualitySufficient g cfg = true ↔
      (g.timeValid = true ∧ cfg.minSatellites ≤ g.satellites ∧
        g.hdop ≤ cfg.maxHDOP ∧ g.updateAge ≤ cfg.maxFixAge) := by
  unfold isGPSQualitySufficient
  constructor
  · intro h
    by_cases h1 : g.timeValid
    case neg => simp [h1] at h
    by_cases h2 : g.satellites < cfg.minSatellites
    case pos => simp [h1, h2] at h
    by_cases h3 : cfg.maxHDOP < g.hdop
    case pos => simp [h1, h2, h3] at h
    by_cases h4 : cfg.maxFixAge < g.updateAge
    case pos => simp [h1, h2, h3, h4] at h
    exact ⟨h1, by omega, le_of_not_lt h3, by omega⟩
  · rintro ⟨h1, h2, h3, h4⟩
    have n2 : ¬(g.satellites < cfg.minSatellites) := by omega
    have n3 : ¬(cfg.maxHDOP < g.hdop) := not_lt.mpr h3
    have n4 : ¬(cfg.maxFixAge < g.updateAge) := by omega
    simp [h1, n2, n3, n4]

/-- Claim C1 (amended): the quality gate is exactly "valid time, enough
satellites, HDOP low enough, fix fresh enough"; a normal reply is only
ever sent when it passes; and a correctly sized, correctly validated
request that is admitted by the global rate limiter while the gate
fails receives the "DENY" Kiss-o'-Death (reference-identifier bytes
68/69/78/89), the quality-drop counter `noGPSDropped` increments, and
no further processing happens (clients and the response counters are
untouched).  A request arriving while the global 1-second budget is
exhausted is instead dropped with no reply at all. -/
theorem c1_quality_gate (cfg : NTPConfig) (g : GPSData) (st : NTPState)
    (packet : Nat → Nat) (clientIP now rx tx : Nat)
    (hvalid : validateNTPRequest packet = true)
    (hgadm : (checkGlobalRateLimit st.globalRateLimit cfg now).2 = true) :
    (isGPSQualitySufficient g cfg = true ↔
      (g.timeValid = true ∧ cfg.minSatellites ≤ g.satellites ∧
        g.hdop ≤ cfg.maxHDOP ∧ g.updateAge ≤ cfg.maxFixAge)) ∧
    (∀ pkt, (handleNTPRequests cfg g st 48 packet clientIP now rx tx).2 =
        NTPAction.reply pkt → isGPSQualitySufficient g cfg = true) ∧
    (isGPSQualitySufficient g cfg = false →
      (handleNTPRequests cfg g st 48 packet clientIP now rx tx).2 =
          NTPAction.kiss (packetBytes (kissPacket denyCode)) ∧
      ((packetBytes (kissPacket denyCode)).drop 12).take 4 = [68, 69, 78, 89] ∧
      (handleNTPRequests cfg g st 48 packet clientIP now rx tx).1.metrics.noGPSDropped =
        inc32 st.metrics.noGPSDropped ∧
      (handleNTPRequests cfg g st 48 packet clientIP now rx tx).1.clients = st.clients ∧
      (handleNTPRequests cfg g st 48 packet clientIP now rx tx).1.metrics.validResponses =
        st.metrics.validResponses ∧
      (handleNTPRequests cfg g st 48 packet clientIP now rx tx).1.metrics.totalRequests =
        st.metrics.totalRequests) := by
  refine ⟨gpsQualitySufficient_iff g cfg, ?_, ?_⟩
  · intro pkt hreply
    by_cases hq : isGPSQualitySufficient g cfg
    · exact hq
    · simp [handleNTPRequests, NTP_PACKET_SIZE, hgadm, hvalid, hq,
        sendKissOfDeath] at hreply
  · intro hq
    refine ⟨?_, by decide, ?_, ?_, ?_, ?_⟩ <;>
      simp [handleNTPRequests, NTP_PACKET_SIZE, hgadm, hvalid, hq, sendKissOfDeath]

/-- Claim C1, counterexample to the claim as stated: with satellites =
3 and the default configured minimum 4, a correctly sized, correctly
validated request that arrives while the global 1-second budget is
already exhausted is dropped silently — no "DENY" denial is sent and
the quality-drop counter stays untouched. -/
theorem c1_counterexample :
    isGPSQualitySufficient threeSatSnapshot getDefaultConfig = false ∧
    threeSatSnapshot.satellites = 3 ∧ getDefaultConfig.minSatellites = 4 ∧
    validateNTPRequest clientPacket = true ∧
    (handleNTPRequests getDefaultConfig threeSatSnapshot saturatedNTPState 48
      clientPacket 777 5000 100 200).2 = NTPAction.silent ∧
    (handleNTPRequests getDefaultConfig threeSatSnapshot saturatedNTPState 48
      clientPacket 777 5000 100 200).1.metrics.noGPSDropped =
      saturatedNTPState.metrics.noGPSDropped := by
  decide

/-! ## Claim C2 — global rate limiting precedes validation -/

/-- Claim C2, counterexample to the claim as stated: a correctly sized
datagram that fails format validation (version 2) is nevertheless
dropped as rate-limited when the global window is saturated (the
rate-limited counter increments, the invalid counter does not), and
when the window has room the same invalid datagram still consumes one
unit of global 1-second budget. -/
theorem c2_counterexample :
    validateNTPRequest badVersionPacket = false ∧
    (handleNTPRequests getDefaultConfig goodSnapshot saturatedNTPState 48
      badVersionPacket 777 5000 100 200).2 = NTPAction.silent ∧
    (handleNTPRequests getDefaultConfig goodSnapshot saturatedNTPState 48
      badVersionPacket 777 5000 100 200).1.metrics.rateLimitedRequests =
      saturatedNTPState.metrics.rateLimitedRequests + 1 ∧
    (handleNTPRequests getDefaultConfig goodSnapshot saturatedNTPState 48
      badVersionPacket 777 5000 100 200).1.metrics.invalidRequests =
      saturatedNTPState.metrics.invalidRequests ∧
    (handleNTPRequests getDefaultConfig goodSnapshot initNTPState 48
      badVersionPacket 777 500 100 200).1.globalRateLimit.requestsThisSecond =
      initNTPState.globalRateLimit.requestsThisSecond + 1 := by
  decide

/-- Claim C2 (amended): for a correctly sized datagram the global
1-second rate-limit state is consulted and modified before format
validation: when the global check admits, an invalid datagram is
dropped as invalid but has already consumed one unit of budget (the
window counter ends one above its pre-consumption value); when the
global ceiling is already reached, the invalid datagram is dropped as
rate-limited without validation being the recorded cause.  The
per-datagram order is Received, global RateCheck, Validated,
QualityChecked, per-client RateCheck. -/
theorem c2_rate_before_validation (cfg : NTPConfig) (g : GPSData) (st : NTPState)
    (packet : Nat → Nat) (clientIP now rx tx : Nat)
    (hinvalid : validateNTPRequest packet = false) :
    ((checkGlobalRateLimit st.globalRateLimit cfg now).2 = true →
      (handleNTPRequests cfg g st 48 packet clientIP now rx tx).2 = NTPAction.silent ∧
      (handleNTPRequests cfg g st 48 packet clientIP now rx tx).1.globalRateLimit =
        (checkGlobalRateLimit st.globalRateLimit cfg now).1 ∧
      (checkGlobalRateLimit st.globalRateLimit cfg now).1.requestsThisSecond =
        (if 1000 < u32sub now st.globalRateLimit.lastSecondReset then 0
         else st.globalRateLimit.requestsThisSecond) + 1 ∧
      (handleNTPRequests cfg g st 48 packet clientIP now rx tx).1.metrics.invalidRequests =
        inc32 st.metrics.invalidRequests) ∧
    ((checkGlobalRateLimit st.globalRateLimit cfg now).2 = false →
      (handleNTPRequests cfg g st 48 packet clientIP now rx tx).2 = NTPAction.silent ∧
      (handleNTPRequests cfg g st 48 packet clientIP now rx tx).1.metrics.rateLimitedRequests =
        inc32 st.metrics.rateLimitedRequests ∧
      (handleNTPRequests cfg g st 48 packet clientIP now rx tx).1.metrics.invalidRequests =
        st.metrics.invalidRequests) := by
  constructor
  · intro h
    refine ⟨?_, ?_, ?_, ?_⟩
    · simp [handleNTPRequests, NTP_PACKET_SIZE, h, hinvalid]
    · simp [handleNTPRequests, NTP_PACKET_SIZE, h, hinvalid]
    · simp only [checkGlobalRateLimit] at h ⊢
      by_cases hr : 1000 < u32sub now st.globalRateLimit.lastSecondReset
      · simp only [hr, if_true] at h ⊢
        by_cases hc : cfg.globalMaxRequestsPerSec ≤ 0
        · simp [hc] at h
        · simp [hc]
      · simp only [hr, if_false] at h ⊢
        by_cases hc : cfg.globalMaxRequestsPerSec ≤ st.globalRateLimit.requestsThisSecond
        · simp [hc] at h
        · simp [hc]
    · simp [handleNTPRequests, NTP_PACKET_SIZE, h, hinvalid]
  · intro h
    refine ⟨?_, ?_, ?_⟩ <;> simp [handleNTPRequests, NTP_PACKET_SIZE, h, hinvalid]

/-! ## Claims C7 and C10 — per-client rate limiting -/

theorem findIdx?_some_lt {α} {p : α → Bool} {l : List α} {i : Nat}
    (h : l.findIdx? p = some i) : i < l.length := by
  rw [List.findIdx?_eq_some_iff_findIdx_eq] at h
  exact h.1

theorem getD_set_self {α} (l : List α) (i : Nat) (a d : α) (h : i < l.length) :
    (l.set i a).getD i d = a := by
  simp [List.getD_eq_getElem?_getD, List.getElem?_set_self h]

theorem getD_set_ne {α} (l : List α) {i j : Nat} (a d : α) (h : i ≠ j) :
    (l.set i a).getD j d = l.getD j d := by
  simp [List.getD_eq_getElem?_getD, List.getElem?_set_ne h]

/-- The denial update applied by `checkClientRateLimit` to a
too-frequent client. -/
def rateDenyUpdate (c : NTPClient) : NTPClient :=
  { c with
    rateLimited := true
    aggressiveCount := inc16 c.aggressiveCount
    aggressive := if NTP_AGGRESSIVE_THRESHOLD < inc16 c.aggressiveCount then true
                  else c.aggressive }

theorem checkClientRateLimit_deny (clients : List NTPClient) (cfg : NTPConfig)
    (m : NTPMetrics) (now ip pollInterval i : Nat)
    (hfind : clients.findIdx? (fun c => c.ip == ip) = some i)
    (hsoon : u32sub now (clients.getD i blankClient).lastRequest <
      cfg.perClientMinInterval) :
    checkClientRateLimit clients cfg m now ip pollInterval =
      (clients.set i (rateDenyUpdate (clients.getD i blankClient)), m, false) := by
  have hsoon2 : u32sub now ((clients[i]?).getD blankClient).lastRequest <
      cfg.perClientMinInterval := by
    simpa [List.getD_eq_getElem?_getD] using hsoon
  simp [checkClientRateLimit, findOrCreateClient, hfind, hsoon2, rateDenyUpdate]

/-- Claim C10: when the per-client check denies a request from a
tracked source, only that slot's `rateLimited`, `aggressiveCount` and
`aggressive` fields change: its `lastRequest`, `requestCount`,
`lastPollInterval` and `averageInterval` are untouched (so the
minimum-interval check keeps measuring from the last accepted request),
every other slot is untouched, and the metrics pass through
unmodified. -/
theorem c10_denial_frame (clients : List NTPClient) (cfg : NTPConfig)
    (m : NTPMetrics) (now ip pollInterval i : Nat)
    (hfind : clients.findIdx? (fun c => c.ip == ip) = some i)
    (hsoon : u32sub now (clients.getD i blankClient).lastRequest <
      cfg.perClientMinInterval) :
    (checkClientRateLimit clients cfg m now ip pollInterval).2.2 = false ∧
    (checkClientRateLimit clients cfg m now ip pollInterval).2.1 = m ∧
    (checkClientRateLimit clients cfg m now ip pollInterval).1.length = clients.length ∧
    ((checkClientRateLimit clients cfg m now ip pollInterval).1.getD i blankClient).ip =
      (clients.getD i blankClient).ip ∧
    ((checkClientRateLimit clients cfg m now ip pollInterval).1.getD i blankClient).lastRequest =
      (clients.getD i blankClient).lastRequest ∧
    ((checkClientRateLimit clients cfg m now ip pollInterval).1.getD i blankClient).requestCount =
      (clients.getD i blankClient).requestCount ∧
    ((checkClientRateLimit clients cfg m now ip pollInterval).1.getD i blankClient).lastPollInterval =
      (clients.getD i blankClient).lastPollInterval ∧
    ((checkClientRateLimit clients cfg m now ip pollInterval).1.getD i blankClient).averageInterval =
      (clients.getD i blankClient).averageInterval ∧
    ((checkClientRateLimit clients cfg m now ip pollInterval).1.getD i blankClient).version =
      (clients.getD i blankClient).version ∧
    ((checkClientRateLimit clients cfg m now ip pollInterval).1.getD i blankClient).rateLimited =
      true ∧
    ((checkClientRateLimit clients cfg m now ip pollInterval).1.getD i blankClient).aggressiveCount =
      inc16 (clients.getD i blankClient).aggressiveCount ∧
    ((checkClientRateLimit clients cfg m now ip pollInterval).1.getD i blankClient).aggressive =
      ((clients.getD i blankClient).aggressive ||
        decide (NTP_AGGRESSIVE_THRESHOLD <
          inc16 (clients.getD i blankClient).aggressiveCount)) ∧
    (∀ j, j ≠ i →
      (checkClientRateLimit clients cfg m now ip pollInterval).1.getD j blankClient =
        clients.getD j blankClient) := by
  have hlt : i < clients.length := findIdx?_some_lt hfind
  rw [checkClientRateLimit_deny clients cfg m now ip pollInterval i hfind hsoon]
  refine ⟨rfl, rfl, by simp, ?_, ?_, ?_, ?_, ?_, ?_, ?_, ?_, ?_, ?_⟩
  · simp [List.getD_eq_getElem?_getD, List.getElem?_set_self hlt, rateDenyUpdate]
  · simp [List.getD_eq_getElem?_getD, List.getElem?_set_self hlt, rateDenyUpdate]
  · simp [List.getD_eq_getElem?_getD, List.getElem?_set_self hlt, rateDenyUpdate]
  · simp [List.getD_eq_getElem?_getD, List.getElem?_set_self hlt, rateDenyUpdate]
  · simp [List.getD_eq_getElem?_getD, List.getElem?_set_self hlt, rateDenyUpdate]
  · simp [List.getD_eq_getElem?_getD, List.getElem?_set_self hlt, rateDenyUpdate]
  · simp [List.getD_eq_getElem?_getD, List.getElem?_set_self hlt, rateDenyUpdate]
  · simp [List.getD_eq_getElem?_getD, List.getElem?_set_self hlt, rateDenyUpdate]
  · by_cases hab : NTP_AGGRESSIVE_THRESHOLD <
        inc16 (clients.getD i blankClient).aggressiveCount <;>
      simp_all [List.getD_eq_getElem?_getD, List.getElem?_set_self hlt,
        rateDenyUpdate] <;>
      exact Bool.or_comm _ _
  · intro j hj
    exact getD_set_ne clients _ blankClient (fun hij => hj (hij.symm))

/-- Claim C7: with per-client limiting enabled, a correctly sized,
validated, quality-passing, globally admitted request from a tracked
source arriving sooner than the configured minimum interval since that
source's last accepted request is answered with the "RATE"
Kiss-o'-Death (reference-identifier bytes 82/65/84/69) and never with a
normal reply; the slot's aggressive counter increases by exactly one
(16-bit increment), the sticky aggressive flag is set once the counter
passes the threshold, and the rate-limited drop counter increments. -/
theorem c7_client_rate_denial (cfg : NTPConfig) (g : GPSData) (st : NTPState)
    (packet : Nat → Nat) (clientIP now rx tx i : Nat)
    (hvalid : validateNTPRequest packet = true)
    (hgadm : (checkGlobalRateLimit st.globalRateLimit cfg now).2 = true)
    (hqual : isGPSQualitySufficient g cfg = true)
    (hrl : cfg.rateLimitEnabled = true)
    (hfind : st.clients.findIdx? (fun c => c.ip == clientIP) = some i)
    (hsoon : u32sub now (st.clients.getD i blankClient).lastRequest <
      cfg.perClientMinInterval) :
    (handleNTPRequests cfg g st 48 packet clientIP now rx tx).2 =
      NTPAction.kiss (packetBytes (kissPacket rateCode)) ∧
    ((packetBytes (kissPacket rateCode)).drop 12).take 4 = [82, 65, 84, 69] ∧
    (∀ pkt, (handleNTPRequests cfg g st 48 packet clientIP now rx tx).2 ≠
      NTPAction.reply pkt) ∧
    ((handleNTPRequests cfg g st 48 packet clientIP now rx tx).1.clients.getD i
        blankClient).aggressiveCount =
      inc16 (st.clients.getD i blankClient).aggressiveCount ∧
    ((handleNTPRequests cfg g st 48 packet clientIP now rx tx).1.clients.getD i
        blankClient).aggressive =
      ((st.clients.getD i blankClient).aggressive ||
        decide (NTP_AGGRESSIVE_THRESHOLD <
          inc16 (st.clients.getD i blankClient).aggressiveCount)) ∧
    (handleNTPRequests cfg g st 48 packet clientIP now rx tx).1.metrics.rateLimitedRequests =
      inc32 st.metrics.rateLimitedRequests := by
  have hlt : i < st.clients.length := findIdx?_some_lt hfind
  have hden := checkClientRateLimit_deny st.clients cfg st.metrics now clientIP
    (extractPollInterval packet) i hfind hsoon
  refine ⟨?_, by decide, ?_, ?_, ?_, ?_⟩
  · simp [handleNTPRequests, NTP_PACKET_SIZE, hgadm, hvalid, hqual, hrl, hden,
      sendKissOfDeath]
  · intro pkt
    simp [handleNTPRequests, NTP_PACKET_SIZE, hgadm, hvalid, hqual, hrl, hden,
      sendKissOfDeath]
  · simp [handleNTPRequests, NTP_PACKET_SIZE, hgadm, hvalid, hqual, hrl, hden,
      sendKissOfDeath, List.getD_eq_getElem?_getD, List.getElem?_set_self hlt,
      rateDenyUpdate]
  · by_cases hab : NTP_AGGRESSIVE_THRESHOLD <
        inc16 (st.clients.getD i blankClient).aggressiveCount <;>
      simp_all [handleNTPRequests, NTP_PACKET_SIZE, hqual, hrl, hden,
        sendKissOfDeath, List.getD_eq_getElem?_getD, List.getElem?_set_self hlt,
        rateDenyUpdate] <;>
      exact Bool.or_comm _ _
  · simp [handleNTPRequests, NTP_PACKET_SIZE, hgadm, hvalid, hqual, hrl, hden,
      sendKissOfDeath]

/-! ## Claim C3 — in-use epoch restart

The table invariant used throughout is that entry identity is the
PRN: no two entries share one (spec data model, "Identity = the
numeric identifier").  It holds in every reachable table state and is
preserved by every sentence. -/

/-- The field content of one GNGSA sentence. -/
structure GSASentenceData where
  systemId : Nat
  fixTypeTok : Option Nat
  satFields : List Nat
  pdopTok : Option ℚ
  hdopTok : Option ℚ
  vdopTok : Option ℚ
deriving Repr, DecidableEq

/-- The routed sentence corresponding to one GNGSA record. -/
def gngsaLine (gs : GSASentenceData) : NmeaSentence :=
  .gngsa gs.systemId gs.fixTypeTok gs.satFields gs.pdopTok gs.hdopTok gs.vdopTok

/-- The satellite identifiers listed by an in-use sentence sequence:
per sentence, the PRN fields consumed by the 12-iteration loop, with
the zero (absent) fields skipped. -/
def listedPRNs : List GSASentenceData → List Nat
  | [] => []
  | gs :: rest =>
    (gs.satFields.take 12).filter (fun q => q != 0) ++ listedPRNs rest

theorem not_any_prn {sats : List SatelliteInfo} {p : Nat}
    (h : sats.any (fun s => s.prn == p) = false) :
    p ∉ sats.map SatelliteInfo.prn := by
  intro hmem
  rcases List.mem_map.mp hmem with ⟨x, hx, hxp⟩
  have : sats.any (fun s => s.prn == p) = true :=
    List.any_eq_true.mpr ⟨x, hx, by simp [hxp]⟩
  rw [this] at h
  cases h

theorem modifyFirst_markEntry_map_prn (c p : Nat) :
    ∀ l : List SatelliteInfo,
      (modifyFirstBy (fun s => s.prn == p) (markEntry c) l).map SatelliteInfo.prn =
        l.map SatelliteInfo.prn := by
  intro l
  induction l with
  | nil => rfl
  | cons s ss ih =>
    by_cases h : (s.prn == p) = true
    · simp [modifyFirstBy, h, markEntry]
    · simp [modifyFirstBy, h, ih]

theorem modifyFirst_prnConst_map_prn (p : Nat) (x : SatelliteInfo) (hx : x.prn = p) :
    ∀ l : List SatelliteInfo,
      (modifyFirstBy (fun s => s.prn == p) (fun _ => x) l).map SatelliteInfo.prn =
        l.map SatelliteInfo.prn := by
  intro l
  induction l with
  | nil => rfl
  | cons s ss ih =>
    by_cases h : (s.prn == p) = true
    · have : s.prn = p := by simpa using h
      simp [modifyFirstBy, h, hx, this]
    · simp [modifyFirstBy, h, ih]

theorem modifyFirst_const_prns_subset (pred : SatelliteInfo → Bool)
    (x : SatelliteInfo) :
    ∀ (l : List SatelliteInfo) (q : Nat),
      q ∈ (modifyFirstBy pred (fun _ => x) l).map SatelliteInfo.prn →
        q = x.prn ∨ q ∈ l.map SatelliteInfo.prn := by
  intro l
  induction l with
  | nil => intro q hq; simp [modifyFirstBy] at hq
  | cons s ss ih =>
    intro q hq
    cases hps : pred s with
    | true =>
      simp only [modifyFirstBy, hps, if_true, List.map_cons, List.mem_cons] at hq
      rcases hq with hq | hq
      · exact Or.inl hq
      · exact Or.inr (by simp [hq])
    | false =>
      simp only [modifyFirstBy, hps, Bool.false_eq_true, if_false, List.map_cons,
        List.mem_cons] at hq
      rcases hq with hq | hq
      · exact Or.inr (by simp [hq])
      · rcases ih q hq with h1 | h1
        · exact Or.inl h1
        · exact Or.inr (by simp [h1])

theorem modifyFirst_const_nodup (pred : SatelliteInfo → Bool) (x : SatelliteInfo) :
    ∀ l : List SatelliteInfo,
      (l.map SatelliteInfo.prn).Nodup →
      x.prn ∉ l.map SatelliteInfo.prn →
      ((modifyFirstBy pred (fun _ => x) l).map SatelliteInfo.prn).Nodup := by
  intro l
  induction l with
  | nil => intro _ _; simp [modifyFirstBy]
  | cons s ss ih =>
    intro hnd hx
    simp only [List.map_cons, List.nodup_cons] at hnd
    simp only [List.map_cons, List.mem_cons] at hx
    push_neg at hx
    cases hps : pred s with
    | true =>
      simp only [modifyFirstBy, hps, if_true, List.map_cons, List.nodup_cons]
      exact ⟨hx.2, hnd.2⟩
    | false =>
      simp only [modifyFirstBy, hps, Bool.false_eq_true, if_false, List.map_cons,
        List.nodup_cons]
      refine ⟨?_, ih hnd.2 hx.2⟩
      intro hmem
      rcases modifyFirst_const_prns_subset pred x ss s.prn hmem with h1 | h1
      · exact hx.1.symm h1
      · exact hnd.1 h1

theorem mark_first_mem (c p : Nat) :
    ∀ l : List SatelliteInfo, (l.map SatelliteInfo.prn).Nodup →
      ∀ e ∈ modifyFirstBy (fun s => s.prn == p) (markEntry c) l,
        (e.prn = p ∧ e.inUse = true) ∨ (e.prn ≠ p ∧ e ∈ l) := by
  intro l
  induction l with
  | nil => intro _ e he; simp [modifyFirstBy] at he
  | cons s ss ih =>
    intro hnd e he
    simp only [List.map_cons, List.nodup_cons] at hnd
    cases hps : (s.prn == p) with
    | true =>
      have hsp : s.prn = p := by simpa using hps
      simp only [modifyFirstBy, hps, if_true, List.mem_cons] at he
      rcases he with he | he
      · exact Or.inl ⟨by simp [he, markEntry, hsp], by simp [he, markEntry]⟩
      · refine Or.inr ⟨?_, List.mem_cons_of_mem s he⟩
        intro hep
        exact hnd.1 (by rw [hsp, ← hep]; exact List.mem_map_of_mem SatelliteInfo.prn he)
    | false =>
      have hsp : s.prn ≠ p := by simpa using hps
      simp only [modifyFirstBy, hps, Bool.false_eq_true, if_false, List.mem_cons] at he
      rcases he with he | he
      · exact Or.inr ⟨by rw [he]; exact hsp, by rw [he]; exact List.mem_cons_self s ss⟩
      · rcases ih hnd.2 e he with h1 | ⟨h1, h2⟩
        · exact Or.inl h1
        · exact Or.inr ⟨h1, List.mem_cons_of_mem s h2⟩

theorem markOne_nodup (c p : Nat) (sats : List SatelliteInfo)
    (hnd : (sats.map SatelliteInfo.prn).Nodup) :
    ((markOne c p sats).map SatelliteInfo.prn).Nodup := by
  unfold markOne
  by_cases h1 : sats.any (fun s => s.prn == p) = true
  · rw [if_pos h1, modifyFirst_markEntry_map_prn]; exact hnd
  · rw [if_neg h1]
    have hnp : p ∉ sats.map SatelliteInfo.prn :=
      not_any_prn (Bool.eq_false_iff.mpr h1)
    by_cases h2 : sats.length < MAX_SATELLITES
    · rw [if_pos h2, List.map_append]
      refine List.Nodup.append hnd (by simp) ?_
      intro a ha hb
      simp [gsaEntry] at hb
      rw [hb] at ha
      exact hnp ha
    · rw [if_neg h2]; exact hnd

theorem markOne_inv (c p : Nat) (sats : List SatelliteInfo) (done : List Nat)
    (hnd : (sats.map SatelliteInfo.prn).Nodup)
    (hinv : ∀ e ∈ sats, e.inUse = true ↔ e.prn ∈ done) :
    ∀ e ∈ markOne c p sats, e.inUse = true ↔ (e.prn ∈ done ∨ e.prn = p) := by
  intro e he
  unfold markOne at he
  by_cases h1 : sats.any (fun s => s.prn == p) = true
  · rw [if_pos h1] at he
    rcases mark_first_mem c p sats hnd e he with ⟨hp, hu⟩ | ⟨hp, hmem⟩
    · simp [hu, hp]
    · rw [hinv e hmem]; simp [hp]
  · rw [if_neg h1] at he
    have hnp : p ∉ sats.map SatelliteInfo.prn :=
      not_any_prn (Bool.eq_false_iff.mpr h1)
    by_cases h2 : sats.length < MAX_SATELLITES
    · rw [if_pos h2] at he
      rcases List.mem_append.mp he with hmem | hsing
      · have hne : e.prn ≠ p := by
          intro hep
          exact hnp (by rw [← hep]; exact List.mem_map_of_mem SatelliteInfo.prn hmem)
        rw [hinv e hmem]; simp [hne]
      · have : e = gsaEntry p c := by simpa using hsing
        simp [this, gsaEntry]
    · rw [if_neg h2] at he
      have hne : e.prn ≠ p := by
        intro hep
        exact hnp (by rw [← hep]; exact List.mem_map_of_mem SatelliteInfo.prn he)
      rw [hinv e he]; simp [hne]

theorem markLoop_nodup (c : Nat) :
    ∀ (prns : List Nat) (sats : List SatelliteInfo),
      (sats.map SatelliteInfo.prn).Nodup →
      ((markLoop c prns sats).map SatelliteInfo.prn).Nodup := by
  intro prns
  induction prns with
  | nil => intro sats hnd; exact hnd
  | cons p rest ih =>
    intro sats hnd
    show ((List.foldl _ (if p = 0 then sats else markOne c p sats) rest).map
      SatelliteInfo.prn).Nodup
    by_cases hp : p = 0
    · rw [if_pos hp]; exact ih sats hnd
    · rw [if_neg hp]; exact ih (markOne c p sats) (markOne_nodup c p sats hnd)

theorem markLoop_inv (c : Nat) :
    ∀ (prns : List Nat) (sats : List SatelliteInfo) (done : List Nat),
      (sats.map SatelliteInfo.prn).Nodup →
      (∀ e ∈ sats, e.inUse = true ↔ e.prn ∈ done) →
      ∀ e ∈ markLoop c prns sats,
        e.inUse = true ↔ e.prn ∈ done ++ prns.filter (fun q => q != 0) := by
  intro prns
  induction prns with
  | nil =>
    intro sats done hnd hinv e he
    simpa using hinv e he
  | cons p rest ih =>
    intro sats done hnd hinv e he
    have he2 : e ∈ List.foldl (fun acc q => if q = 0 then acc else markOne c q acc)
        (if p = 0 then sats else markOne c p sats) rest := he
    by_cases hp : p = 0
    · rw [if_pos hp] at he2
      have := ih sats done hnd hinv e he2
      simpa [List.filter_cons, hp] using this
    · rw [if_neg hp] at he2
      have hinv1 : ∀ e ∈ markOne c p sats, e.inUse = true ↔ e.prn ∈ done ++ [p] := by
        intro x hx
        rw [markOne_inv c p sats done hnd hinv x hx]
        simp
      have := ih (markOne c p sats) (done ++ [p])
        (markOne_nodup c p sats hnd) hinv1 e he2
      rw [this]
      have hpb : (p != 0) = true := by simpa using hp
      rw [List.filter_cons, if_pos hpb]
      simp only [List.mem_append, List.mem_singleton, List.mem_cons]
      tauto

theorem gsvStore_nodup (p e a snr : Nat) (sats : List SatelliteInfo)
    (hnd : (sats.map SatelliteInfo.prn).Nodup) :
    ((gsvStore p e a snr sats).map SatelliteInfo.prn).Nodup := by
  unfold gsvStore
  by_cases h1 : sats.any (fun s => s.prn == p) = true
  · rw [if_pos h1, modifyFirst_prnConst_map_prn p (gsvEntry p e a snr) rfl]
    exact hnd
  · rw [if_neg h1]
    have hnp : p ∉ sats.map SatelliteInfo.prn :=
      not_any_prn (Bool.eq_false_iff.mpr h1)
    by_cases h2 : sats.any (fun s => !s.tracked) = true
    · rw [if_pos h2]
      exact modifyFirst_const_nodup _ _ sats hnd hnp
    · rw [if_neg h2]
      by_cases h3 : sats.length < MAX_SATELLITES
      · rw [if_pos h3, List.map_append]
        refine List.Nodup.append hnd (by simp) ?_
        intro x hx hb
        simp [gsvEntry] at hb
        rw [hb] at hx
        exact hnp hx
      · rw [if_neg h3]; exact hnd

theorem gsvSatLoop_nodup :
    ∀ (quads : List (Nat × Nat × Nat × Nat)) (sats : List SatelliteInfo),
      (sats.map SatelliteInfo.prn).Nodup →
      ((gsvSatLoop quads sats).map SatelliteInfo.prn).Nodup := by
  intro quads
  induction quads with
  | nil => intro sats hnd; exact hnd
  | cons q rest ih =>
    intro sats hnd
    obtain ⟨p, e, a, snr⟩ := q
    show ((if p = 0 then sats
      else gsvSatLoop rest (gsvStore p e a snr sats)).map SatelliteInfo.prn).Nodup
    by_cases hp : p = 0
    · rw [if_pos hp]; exact hnd
    · rw [if_neg hp]; exact ih _ (gsvStore_nodup p e a snr sats hnd)

theorem map_prn_clearInUse (l : List SatelliteInfo) :
    (l.map (fun s => { s with inUse := false })).map SatelliteInfo.prn =
      l.map SatelliteInfo.prn := by
  induction l with
  | nil => rfl
  | cons s ss ih => simp [ih]

theorem clearInUse_inv (l : List SatelliteInfo) :
    ∀ e ∈ l.map (fun s => { s with inUse := false }),
      e.inUse = true ↔ e.prn ∈ ([] : List Nat) := by
  intro e he
  rcases List.mem_map.mp he with ⟨x, _, rfl⟩
  simp

theorem parseNMEA_gpgsa_sats (st : GPSState) (ft : Option Nat) (sf : List Nat)
    (pd hd vd : Option ℚ) (now : Nat) :
    (parseNMEASentence st (.gpgsa ft sf pd hd vd) now).satTracking.satellites =
      markLoop 1 (sf.take 12) st.satTracking.satellites := by
  simp [parseNMEASentence, parseGPGSASentence, markSatellitesInUse]

theorem parseNMEA_gngsa_invalid_sats (st : GPSState) (sysId : Nat)
    (ft : Option Nat) (sf : List Nat) (pd hd vd : Option ℚ) (now : Nat)
    (hv : sysId < 1 ∨ 6 < sysId) :
    (parseNMEASentence st (.gngsa sysId ft sf pd hd vd) now).satTracking.satellites =
      st.satTracking.satellites := by
  have hv2 : sysId = 0 ∨ 6 < sysId := by omega
  simp [parseNMEASentence, parseGNGSASentence, hv2]

theorem parseNMEA_gngsa_restart_sats (st : GPSState) (gs : GSASentenceData)
    (now : Nat) (h1 : gs.systemId = 1) :
    (parseNMEASentence st (gngsaLine gs) now).satTracking.satellites =
      markLoop 1 (gs.satFields.take 12)
        (st.satTracking.satellites.map (fun s => { s with inUse := false })) := by
  simp [parseNMEASentence, gngsaLine, parseGNGSASentence, markSatellitesInUse, h1]

theorem parseNMEA_gngsa_cont_sats (st : GPSState) (gs : GSASentenceData)
    (now : Nat) (h2 : 2 ≤ gs.systemId) (h6 : gs.systemId ≤ 6) :
    (parseNMEASentence st (gngsaLine gs) now).satTracking.satellites =
      markLoop gs.systemId (gs.satFields.take 12) st.satTracking.satellites := by
  have hv : ¬(gs.systemId = 0 ∨ 6 < gs.systemId) := by omega
  have hne : ¬(gs.systemId = 1) := by omega
  simp [parseNMEASentence, gngsaLine, parseGNGSASentence, markSatellitesInUse, hv, hne]

theorem parseNMEASentence_nodup (st : GPSState) (line : NmeaSentence) (now : Nat)
    (hnd : (st.satTracking.satellites.map SatelliteInfo.prn).Nodup) :
    ((parseNMEASentence st line now).satTracking.satellites.map
      SatelliteInfo.prn).Nodup := by
  cases line with
  | gpgsv sats =>
    have h : (parseNMEASentence st (.gpgsv sats) now).satTracking.satellites =
        gsvSatLoop sats st.satTracking.satellites := by
      simp [parseNMEASentence, parseGSVSentence]
    rw [h]; exact gsvSatLoop_nodup sats _ hnd
  | glgsv sats =>
    have h : (parseNMEASentence st (.glgsv sats) now).satTracking.satellites =
        gsvSatLoop sats st.satTracking.satellites := by
      simp [parseNMEASentence, parseGSVSentence]
    rw [h]; exact gsvSatLoop_nodup sats _ hnd
  | gagsv sats =>
    have h : (parseNMEASentence st (.gagsv sats) now).satTracking.satellites =
        gsvSatLoop sats st.satTracking.satellites := by
      simp [parseNMEASentence, parseGSVSentence]
    rw [h]; exact gsvSatLoop_nodup sats _ hnd
  | gbgsv sats =>
    have h : (parseNMEASentence st (.gbgsv sats) now).satTracking.satellites =
        gsvSatLoop sats st.satTracking.satellites := by
      simp [parseNMEASentence, parseGSVSentence]
    rw [h]; exact gsvSatLoop_nodup sats _ hnd
  | gngsv sats =>
    cases sats with
    | nil =>
      have h : (parseNMEASentence st (.gngsv []) now).satTracking.satellites =
          st.satTracking.satellites := by
        simp [parseNMEASentence]
      rw [h]; exact hnd
    | cons q qs =>
      obtain ⟨p, e, a, snr⟩ := q
      have h : (parseNMEASentence st (.gngsv ((p, e, a, snr) :: qs))
            now).satTracking.satellites =
          gsvSatLoop ((p, e, a, snr) :: qs) st.satTracking.satellites := by
        simp [parseNMEASentence, parseGSVSentence]
      rw [h]; exact gsvSatLoop_nodup _ _ hnd
  | gpgsa ft sf pd hd vd =>
    rw [parseNMEA_gpgsa_sats]
    exact markLoop_nodup 1 _ _ hnd
  | gngsa sysId ft sf pd hd vd =>
    by_cases hv : sysId < 1 ∨ 6 < sysId
    · rw [parseNMEA_gngsa_invalid_sats st sysId ft sf pd hd vd now hv]
      exact hnd
    · by_cases h1 : sysId = 1
      · have h := parseNMEA_gngsa_restart_sats st
          ⟨sysId, ft, sf, pd, hd, vd⟩ now h1
        rw [gngsaLine] at h
        rw [h]
        apply markLoop_nodup
        rw [map_prn_clearInUse]; exact hnd
      · have h := parseNMEA_gngsa_cont_sats st ⟨sysId, ft, sf, pd, hd, vd⟩ now
          (by simp; omega) (by simp; omega)
        rw [gngsaLine] at h
        rw [h]
        exact markLoop_nodup _ _ _ hnd

theorem foldParse_nodup (now : Nat) :
    ∀ (lines : List NmeaSentence) (st : GPSState),
      (st.satTracking.satellites.map SatelliteInfo.prn).Nodup →
      (((lines.foldl (fun s l => parseNMEASentence s l now) st)
        |>.satTracking.satellites.map SatelliteInfo.prn)).Nodup := by
  intro lines
  induction lines with
  | nil => intro st hnd; exact hnd
  | cons l rest ih =>
    intro st hnd
    exact ih _ (parseNMEASentence_nodup st l now hnd)

theorem gsaFold_inv (now : Nat) :
    ∀ (seq : List GSASentenceData) (st : GPSState) (done : List Nat),
      (∀ gs ∈ seq, 2 ≤ gs.systemId ∧ gs.systemId ≤ 6) →
      (st.satTracking.satellites.map SatelliteInfo.prn).Nodup →
      (∀ e ∈ st.satTracking.satellites, e.inUse = true ↔ e.prn ∈ done) →
      ∀ e ∈ ((seq.map gngsaLine).foldl (fun s l => parseNMEASentence s l now) st)
          |>.satTracking.satellites,
        e.inUse = true ↔ e.prn ∈ done ++ listedPRNs seq := by
  intro seq
  induction seq with
  | nil =>
    intro st done _ _ hinv e he
    simp only [List.map_nil, List.foldl_nil] at he
    simpa [listedPRNs] using hinv e he
  | cons gs rest ih =>
    intro st done hval hnd hinv e he
    simp only [List.map_cons, List.foldl_cons] at he
    have hgs := hval gs (List.mem_cons_self gs rest)
    have hsats := parseNMEA_gngsa_cont_sats st gs now hgs.1 hgs.2
    have hnd1 : ((parseNMEASentence st (gngsaLine gs) now).satTracking.satellites.map
        SatelliteInfo.prn).Nodup := by
      rw [hsats]; exact markLoop_nodup _ _ _ hnd
    have hinv1 : ∀ x ∈ (parseNMEASentence st (gngsaLine gs) now).satTracking.satellites,
        x.inUse = true ↔
          x.prn ∈ done ++ (gs.satFields.take 12).filter (fun q => q != 0) := by
      intro x hx
      rw [hsats] at hx
      exact markLoop_inv gs.systemId _ _ done hnd hinv x hx
    have hrest : ∀ g ∈ rest, 2 ≤ g.systemId ∧ g.systemId ≤ 6 :=
      fun g hg => hval g (List.mem_cons_of_mem gs hg)
    have := ih (parseNMEASentence st (gngsaLine gs) now)
      (done ++ (gs.satFields.take 12).filter (fun q => q != 0)) hrest hnd1 hinv1 e he
    rw [this]
    simp [listedPRNs, List.append_assoc]

/-- Claim C3: for every satellite-table state (with its invariant that
entry identity is the PRN), every prefix of visibility sentences, and
every complete in-use sentence sequence whose first sentence carries
trailing system id 1 (the rest carrying ids 2-6), after routing all
those sentences an entry's `inUse` flag is true exactly when its PRN
is listed in that in-use sequence: the restart clears every flag, so
no membership from a previous epoch survives. -/
theorem c3_inuse_epoch (st0 : GPSState) (now : Nat) (gsvLines : List NmeaSentence)
    (first : GSASentenceData) (rest : List GSASentenceData)
    (hnd : (st0.satTracking.satellites.map SatelliteInfo.prn).Nodup)
    (hfirst : first.systemId = 1)
    (hrest : ∀ gs ∈ rest, 2 ≤ gs.systemId ∧ gs.systemId ≤ 6) :
    ∀ e ∈ ((gsvLines ++ (first :: rest).map gngsaLine).foldl
        (fun s l => parseNMEASentence s l now) st0).satTracking.satellites,
      e.inUse = true ↔ e.prn ∈ listedPRNs (first :: rest) := by
  intro e he
  rw [List.foldl_append, List.map_cons, List.foldl_cons] at he
  have hndMid : ((gsvLines.foldl (fun s l => parseNMEASentence s l now) st0)
      |>.satTracking.satellites.map SatelliteInfo.prn).Nodup :=
    foldParse_nodup now gsvLines st0 hnd
  set stMid := gsvLines.foldl (fun s l => parseNMEASentence s l now) st0 with hmid
  have hsats1 := parseNMEA_gngsa_restart_sats stMid first now hfirst
  have hndClear : ((stMid.satTracking.satellites.map
      (fun s => { s with inUse := false })).map SatelliteInfo.prn).Nodup := by
    rw [map_prn_clearInUse]; exact hndMid
  have hnd1 : ((parseNMEASentence stMid (gngsaLine first) now).satTracking.satellites.map
      SatelliteInfo.prn).Nodup := by
    rw [hsats1]; exact markLoop_nodup 1 _ _ hndClear
  have hinv1 : ∀ x ∈ (parseNMEASentence stMid (gngsaLine first) now)
      |>.satTracking.satellites,
      x.inUse = true ↔
        x.prn ∈ (first.satFields.take 12).filter (fun q => q != 0) := by
    intro x hx
    rw [hsats1] at hx
    have := markLoop_inv 1 (first.satFields.take 12) _ [] hndClear
      (clearInUse_inv stMid.satTracking.satellites) x hx
    simpa using this
  have hinv1e : ∀ x ∈ (parseNMEASentence stMid (gngsaLine first) now)
      |>.satTracking.satellites,
      x.inUse = true ↔
        x.prn ∈ ((first.satFields.take 12).filter (fun q => q != 0) : List Nat) :=
    hinv1
  have := gsaFold_inv now rest (parseNMEASentence stMid (gngsaLine first) now)
    ((first.satFields.take 12).filter (fun q => q != 0)) hrest hnd1 hinv1e e he
  rw [this]
  simp [listedPRNs]

/-! ## Witnesses -/

/-- A tracked client whose last accepted request was at t = 400. -/
def trackedClientState : NTPState :=
  { initNTPState with
    clients := [{ ip := 777, lastRequest := 400, requestCount := 3,
                  lastPollInterval := 6, averageInterval := 1000,
                  aggressiveCount := 2, aggressive := false, rateLimited := false,
                  version := 3 }] }

/-- Witness for `c1_quality_gate` at a concrete admitted request. -/
theorem c1_quality_gate_witness :
    validateNTPRequest clientPacket = true ∧
    (checkGlobalRateLimit initNTPState.globalRateLimit getDefaultConfig 500).2 = true ∧
    ((isGPSQualitySufficient threeSatSnapshot getDefaultConfig = true ↔
      (threeSatSnapshot.timeValid = true ∧
        getDefaultConfig.minSatellites ≤ threeSatSnapshot.satellites ∧
        threeSatSnapshot.hdop ≤ getDefaultConfig.maxHDOP ∧
        threeSatSnapshot.updateAge ≤ getDefaultConfig.maxFixAge)) ∧
    (∀ pkt, (handleNTPRequests getDefaultConfig threeSatSnapshot initNTPState 48
        clientPacket 777 500 100 200).2 = NTPAction.reply pkt →
      isGPSQualitySufficient threeSatSnapshot getDefaultConfig = true) ∧
    (isGPSQualitySufficient threeSatSnapshot getDefaultConfig = false →
      (handleNTPRequests getDefaultConfig threeSatSnapshot initNTPState 48
          clientPacket 777 500 100 200).2 =
          NTPAction.kiss (packetBytes (kissPacket denyCode)) ∧
      ((packetBytes (kissPacket denyCode)).drop 12).take 4 = [68, 69, 78, 89] ∧
      (handleNTPRequests getDefaultConfig threeSatSnapshot initNTPState 48
          clientPacket 777 500 100 200).1.metrics.noGPSDropped =
        inc32 initNTPState.metrics.noGPSDropped ∧
      (handleNTPRequests getDefaultConfig threeSatSnapshot initNTPState 48
          clientPacket 777 500 100 200).1.clients = initNTPState.clients ∧
      (handleNTPRequests getDefaultConfig threeSatSnapshot initNTPState 48
          clientPacket 777 500 100 200).1.metrics.validResponses =
        initNTPState.metrics.validResponses ∧
      (handleNTPRequests getDefaultConfig threeSatSnapshot initNTPState 48
          clientPacket 777 500 100 200).1.metrics.totalRequests =
        initNTPState.metrics.totalRequests)) :=
  ⟨by decide, by decide,
    c1_quality_gate getDefaultConfig threeSatSnapshot initNTPState clientPacket
      777 500 100 200 (by decide) (by decide)⟩

/-- Witness for `c2_rate_before_validation` at a concrete invalid
datagram. -/
theorem c2_rate_before_validation_witness :
    validateNTPRequest badVersionPacket = false ∧
    (((checkGlobalRateLimit initNTPState.globalRateLimit getDefaultConfig 500).2 = true →
      (handleNTPRequests getDefaultConfig goodSnapshot initNTPState 48
        badVersionPacket 777 500 100 200).2 = NTPAction.silent ∧
      (handleNTPRequests getDefaultConfig goodSnapshot initNTPState 48
          badVersionPacket 777 500 100 200).1.globalRateLimit =
        (checkGlobalRateLimit initNTPState.globalRateLimit getDefaultConfig 500).1 ∧
      (checkGlobalRateLimit initNTPState.globalRateLimit getDefaultConfig
          500).1.requestsThisSecond =
        (if 1000 < u32sub 500 initNTPState.globalRateLimit.lastSecondReset then 0
         else initNTPState.globalRateLimit.requestsThisSecond) + 1 ∧
      (handleNTPRequests getDefaultConfig goodSnapshot initNTPState 48
          badVersionPacket 777 500 100 200).1.metrics.invalidRequests =
        inc32 initNTPState.metrics.invalidRequests) ∧
    ((checkGlobalRateLimit initNTPState.globalRateLimit getDefaultConfig 500).2 = false →
      (handleNTPRequests getDefaultConfig goodSnapshot initNTPState 48
        badVersionPacket 777 500 100 200).2 = NTPAction.silent ∧
      (handleNTPRequests getDefaultConfig goodSnapshot initNTPState 48
          badVersionPacket 777 500 100 200).1.metrics.rateLimitedRequests =
        inc32 initNTPState.metrics.rateLimitedRequests ∧
      (handleNTPRequests getDefaultConfig goodSnapshot initNTPState 48
          badVersionPacket 777 500 100 200).1.metrics.invalidRequests =
        initNTPState.metrics.invalidRequests)) :=
  ⟨by decide,
    c2_rate_before_validation getDefaultConfig goodSnapshot initNTPState
      badVersionPacket 777 500 100 200 (by decide)⟩

/-- Witness for `c3_inuse_epoch` at a concrete sentence sequence: one
visibility line, a restarting GNGSA listing PRNs 5 and 7, then a
GLONASS GNGSA listing PRN 65. -/
theorem c3_inuse_epoch_witness :
    (initGPSState.satTracking.satellites.map SatelliteInfo.prn).Nodup ∧
    (⟨1, some 3, [5, 7], none, none, none⟩ : GSASentenceData).systemId = 1 ∧
    (∀ gs ∈ [(⟨2, some 3, [65], none, none, none⟩ : GSASentenceData)],
      2 ≤ gs.systemId ∧ gs.systemId ≤ 6) ∧
    (∀ e ∈ (([NmeaSentence.gpgsv [(5, 45, 90, 40)]] ++
        ([⟨1, some 3, [5, 7], none, none, none⟩,
          ⟨2, some 3, [65], none, none, none⟩] : List GSASentenceData).map
          gngsaLine).foldl
        (fun s l => parseNMEASentence s l 1000) initGPSState).satTracking.satellites,
      e.inUse = true ↔
        e.prn ∈ listedPRNs [⟨1, some 3, [5, 7], none, none, none⟩,
          ⟨2, some 3, [65], none, none, none⟩]) :=
  ⟨by decide, by decide, by decide,
    c3_inuse_epoch initGPSState 1000 [NmeaSentence.gpgsv [(5, 45, 90, 40)]]
      ⟨1, some 3, [5, 7], none, none, none⟩
      [⟨2, some 3, [65], none, none, none⟩]
      (by decide) (by decide) (by decide)⟩

/-- Witness for `c7_client_rate_denial`: the tracked client at t = 400
sends again at t = 900, sooner than the 1000 ms minimum interval. -/
theorem c7_client_rate_denial_witness :
    validateNTPRequest clientPacket = true ∧
    (checkGlobalRateLimit trackedClientState.globalRateLimit getDefaultConfig 900).2 =
      true ∧
    isGPSQualitySufficient goodSnapshot getDefaultConfig = true ∧
    getDefaultConfig.rateLimitEnabled = true ∧
    trackedClientState.clients.findIdx? (fun c => c.ip == 777) = some 0 ∧
    u32sub 900 (trackedClientState.clients.getD 0 blankClient).lastRequest <
      getDefaultConfig.perClientMinInterval ∧
    ((handleNTPRequests getDefaultConfig goodSnapshot trackedClientState 48
        clientPacket 777 900 100 200).2 =
      NTPAction.kiss (packetBytes (kissPacket rateCode)) ∧
    ((packetBytes (kissPacket rateCode)).drop 12).take 4 = [82, 65, 84, 69] ∧
    (∀ pkt, (handleNTPRequests getDefaultConfig goodSnapshot trackedClientState 48
        clientPacket 777 900 100 200).2 ≠ NTPAction.reply pkt) ∧
    ((handleNTPRequests getDefaultConfig goodSnapshot trackedClientState 48
        clientPacket 777 900 100 200).1.clients.getD 0 blankClient).aggressiveCount =
      inc16 (trackedClientState.clients.getD 0 blankClient).aggressiveCount ∧
    ((handleNTPRequests getDefaultConfig goodSnapshot trackedClientState 48
        clientPacket 777 900 100 200).1.clients.getD 0 blankClient).aggressive =
      ((trackedClientState.clients.getD 0 blankClient).aggressive ||
        decide (NTP_AGGRESSIVE_THRESHOLD <
          inc16 (trackedClientState.clients.getD 0 blankClient).aggressiveCount)) ∧
    (handleNTPRequests getDefaultConfig goodSnapshot trackedClientState 48
        clientPacket 777 900 100 200).1.metrics.rateLimitedRequests =
      inc32 trackedClientState.metrics.rateLimitedRequests) :=
  ⟨by decide, by decide, by decide, by decide, by decide, by decide,
    c7_client_rate_denial getDefaultConfig goodSnapshot trackedClientState
      clientPacket 777 900 100 200 0 (by decide) (by decide) (by decide) (by decide)
      (by decide) (by decide)⟩

/-- Witness for `c10_denial_frame` at the same concrete denial. -/
theorem c10_denial_frame_witness :
    trackedClientState.clients.findIdx? (fun c => c.ip == 777) = some 0 ∧
    u32sub 900 (trackedClientState.clients.getD 0 blankClient).lastRequest <
      getDefaultConfig.perClientMinInterval ∧
    ((checkClientRateLimit trackedClientState.clients getDefaultConfig initMetrics
        900 777 6).2.2 = false ∧
    (checkClientRateLimit trackedClientState.clients getDefaultConfig initMetrics
        900 777 6).2.1 = initMetrics ∧
    (checkClientRateLimit trackedClientState.clients getDefaultConfig initMetrics
        900 777 6).1.length = trackedClientState.clients.length ∧
    ((checkClientRateLimit trackedClientState.clients getDefaultConfig initMetrics
        900 777 6).1.getD 0 blankClient).ip =
      (trackedClientState.clients.getD 0 blankClient).ip ∧
    ((checkClientRateLimit trackedClientState.clients getDefaultConfig initMetrics
        900 777 6).1.getD 0 blankClient).lastRequest =
      (trackedClientState.clients.getD 0 blankClient).lastRequest ∧
    ((checkClientRateLimit trackedClientState.clients getDefaultConfig initMetrics
        900 777 6).1.getD 0 blankClient).requestCount =
      (trackedClientState.clients.getD 0 blankClient).requestCount ∧
    ((checkClientRateLimit trackedClientState.clients getDefaultConfig initMetrics
        900 777 6).1.getD 0 blankClient).lastPollInterval =
      (trackedClientState.clients.getD 0 blankClient).lastPollInterval ∧
    ((checkClientRateLimit trackedClientState.clients getDefaultConfig initMetrics
        900 777 6).1.getD 0 blankClient).averageInterval =
      (trackedClientState.clients.getD 0 blankClient).averageInterval ∧
    ((checkClientRateLimit trackedClientState.clients getDefaultConfig initMetrics
        900 777 6).1.getD 0 blankClient).version =
      (trackedClientState.clients.getD 0 blankClient).version ∧
    ((checkClientRateLimit trackedClientState.clients getDefaultConfig initMetrics
        900 777 6).1.getD 0 blankClient).rateLimited = true ∧
    ((checkClientRateLimit trackedClientState.clients getDefaultConfig initMetrics
        900 777 6).1.getD 0 blankClient).aggressiveCount =
      inc16 (trackedClientState.clients.getD 0 blankClient).aggressiveCount ∧
    ((checkClientRateLimit trackedClientState.clients getDefaultConfig initMetrics
        900 777 6).1.getD 0 blankClient).aggressive =
      ((trackedClientState.clients.getD 0 blankClient).aggressive ||
        decide (NTP_AGGRESSIVE_THRESHOLD <
          inc16 (trackedClientState.clients.getD 0 blankClient).aggressiveCount)) ∧
    (∀ j, j ≠ 0 →
      (checkClientRateLimit trackedClientState.clients getDefaultConfig initMetrics
          900 777 6).1.getD j blankClient =
        trackedClientState.clients.getD j blankClient)) :=
  ⟨by decide, by decide,
    c10_denial_frame trackedClientState.clients getDefaultConfig initMetrics
      900 777 6 0 (by decide) (by decide)⟩

end NTPFW
